import Mathlib

/-
  Verification development for the fractalviewer genome/evolution engine.

  Shallow embedding of the TypeScript modules
    src/lib/breeding.ts, src/lib/evolution3d.ts, src/lib/genome3d.ts, src/lib/ifs3d.ts
  into Lean 4 / Mathlib, together with theorems settling the spec claims.

  Modelling conventions:
  * JavaScript `number` is modelled as an exact real (ℝ) wherever the code does
    field arithmetic / sqrt / trigonometry, and as an exact rational (ℚ) where
    the code only manipulates exact decimal constants (random-stream outputs,
    rate thresholds).  In the chaos-game module (ifs3d.ts), where the code
    explicitly tests `isFinite`, numbers are modelled by `JNum`, reals extended
    with a single non-finite element that is propagated by arithmetic (the
    collapse of NaN/±Infinity into one value).
  * Every call to the ambient `Math.random()` is modelled by reading a fixed
    stream `r : ℕ → ℚ` at a threaded index `k`; a function that draws n times
    returns the advanced index alongside its result.  The seeded random source
    (mulberry32) threads its 32-bit-plus-carry state `s : ℕ` instead.
  * `Date.now()` is modelled by an explicit `time : ℕ` argument and the global
    `idCounter` by an explicit threaded counter; `generateId` consumes both.
  * Array mutation in the source (`splice`, `m[i] +=`, `push`) acts on local
    copies only; it is modelled by the corresponding pure list operations.
-/

namespace Fractal

noncomputable section

/-! ## Seeded random source (genome3d.ts, mulberry32)

`seededRandom` in genome3d.ts:

    let t = currentSeed += 0x6D2B79F5;
    t = Math.imul(t ^ t >>> 15, t | 1);
    t ^= t + Math.imul(t ^ t >>> 7, t | 61);
    return ((t ^ t >>> 14) >>> 0) / 4294967296;

JS `>>>`, `^`, `|` and `Math.imul` operate on the argument reduced mod 2^32
(the two's-complement bit pattern); signed addition agrees with unsigned
addition mod 2^32 on bit patterns, so the whole body is a function of
`currentSeed % 2^32`.  `currentSeed += 0x6D2B79F5` is exact JS float addition
(exact for integers, modelled by ℕ addition). -/

/-- The mulberry32 output word computed from the (already incremented) state
`s`; every bitwise step is taken mod 2^32 exactly as the JS coercions do. -/
def mulberry32 (s : ℕ) : ℕ :=
  let u := s % 4294967296
  let t1 := ((u ^^^ (u >>> 15)) * (u ||| 1)) % 4294967296
  let t2 := t1 ^^^ ((t1 + ((t1 ^^^ (t1 >>> 7)) * (t1 ||| 61)) % 4294967296) % 4294967296)
  t2 ^^^ (t2 >>> 14)

/-- One draw of `seededRandom`: bump the state by 0x6D2B79F5 and divide the
mulberry32 word by 2^32.  Returns (output, new state). -/
def seededRandom (s : ℕ) : ℚ × ℕ :=
  let s2 := s + 0x6D2B79F5
  ((mulberry32 s2 : ℚ) / 4294967296, s2)

/-- State of the code after `k+1` draws starting from `seed` (the state is a JS
float that simply keeps growing; addition is exact). -/
def seededState (seed : ℕ) : ℕ → ℕ
  | 0 => seed
  | n + 1 => (seededState seed n) + 0x6D2B79F5

/-- Output of the code's draw number `n` (0-based) starting from `seed`. -/
def seededOut (seed n : ℕ) : ℚ := (seededRandom (seededState seed n)).1

/-- Modelled from the spec (§4.3): the state sequence as the spec words it,
reduced mod 2^32 at every step (`s = s + 0x6D2B79F5 (mod 2^32)`). -/
def specMulberryState (seed : ℕ) : ℕ → ℕ
  | 0 => seed % 4294967296
  | n + 1 => ((specMulberryState seed n) + 0x6D2B79F5) % 4294967296

/-- Modelled from the spec (§4.3): output of draw `n`, namely the xorshift
pipeline of the mod-2^32 state divided by 2^32. -/
def specMulberryOut (seed n : ℕ) : ℚ :=
  (mulberry32 (specMulberryState seed (n + 1)) : ℚ) / 4294967296

/-! ## Data model (types3d.ts) -/

/-- The optional rating of a genome (`'up' | 'down'`). -/
inductive Rating where
  | up
  | down
deriving DecidableEq

/-- AffineTransform3D: 3x3 row-major matrix (9 numbers), translation,
unnormalized probability weight, RGB color triple. -/
structure AffineTransform3D where
  m : List ℝ
  tx : ℝ
  ty : ℝ
  tz : ℝ
  probability : ℝ
  color : ℝ × ℝ × ℝ

/-- FractalGenome3D: id, transform list, generation, parent ids, optional
rating.  (The optional `comment` field is never read by the engine and is
omitted.) -/
structure FractalGenome3D where
  id : String
  transforms : List AffineTransform3D
  generation : ℕ
  parentIds : List String
  rating : Option Rating := none

/-- A throwaway transform used as the default value of list lookups that the
source guarantees are in bounds (JS would yield `undefined` out of bounds). -/
def dTransform : AffineTransform3D :=
  { m := [], tx := 0, ty := 0, tz := 0, probability := 0, color := (0, 0, 0) }

/-- A throwaway genome used as the default value of list lookups that the
source guarantees are in bounds. -/
def dGenome : FractalGenome3D :=
  { id := "", transforms := [], generation := 0, parentIds := [], rating := none }

/-! ## Transform algebra (breeding.ts) -/

/-- The accumulator of `spectralRadius`: `for (i < 9) sum += m[i] * m[i]`. -/
def frobSumSq (m : List ℝ) : ℝ := ∑ i ∈ Finset.range 9, (m.getD i 0) ^ 2

/-- spectralRadius (breeding.ts:21): Frobenius-norm based approximation
`sqrt(sum of squared entries / 3)`. -/
def spectralRadius (m : List ℝ) : ℝ := Real.sqrt (frobSumSq m / 3)

open Classical in
/-- enforceContractivity (breeding.ts:54): if the spectral-radius approximation
exceeds `maxContractivity`, uniformly rescale every entry by
`maxContractivity / sr` (the source binds `sr` and `scale` to local consts,
inlined here); otherwise return the matrix unchanged. -/
def enforceContractivity (m : List ℝ) (maxContractivity : ℝ) : List ℝ :=
  if spectralRadius m > maxContractivity then
    m.map (fun v => v * (maxContractivity / spectralRadius m))
  else m

open Classical in
/-- calculateFitness (breeding.ts:542). -/
def calculateFitness (genome : FractalGenome3D) : ℝ :=
  let fitness : ℝ := 1.0
  let fitness := if genome.rating = some Rating.up then fitness * 3.0 else fitness
  let fitness := if genome.rating = some Rating.down then fitness * 0.1 else fitness
  let avgContractivity :=
    (genome.transforms.foldl (fun sum t => sum + spectralRadius t.m) 0) /
      (genome.transforms.length : ℝ)
  let fitness := if avgContractivity < 0.7 then fitness * 1.2 else fitness
  fitness * (1 + ((genome.transforms.length : ℝ) - 3) * 0.1)

/-! Modelled from the spec (§4.5), for the refinement claim C5:
`fitness = base × ratingFactor × contractivityBonus × diversityFactor`. -/

/-- Modelled from the spec (§4.5): the mean spectral-radius approximation
across all transforms. -/
def specAvgSR (genome : FractalGenome3D) : ℝ :=
  (genome.transforms.foldl (fun sum t => sum + spectralRadius t.m) 0) /
    (genome.transforms.length : ℝ)

/-- Modelled from the spec (§4.5): 3.0 if rated up, 0.1 if rated down, 1.0
otherwise. -/
def specRatingFactor (genome : FractalGenome3D) : ℝ :=
  match genome.rating with
  | some Rating.up => 3.0
  | some Rating.down => 0.1
  | none => 1.0

open Classical in
/-- Modelled from the spec (§4.5): 1.2 if the mean spectral-radius
approximation is `< 0.7`, else 1.0. -/
def specContractivityBonus (genome : FractalGenome3D) : ℝ :=
  if specAvgSR genome < 0.7 then 1.2 else 1.0

/-- Modelled from the spec (§4.5): `1 + (transformCount - 3) × 0.1`. -/
def specDiversityFactor (genome : FractalGenome3D) : ℝ :=
  1 + ((genome.transforms.length : ℝ) - 3) * 0.1

/-- Modelled from the spec (§4.5): the full factored fitness formula. -/
def specFitness (genome : FractalGenome3D) : ℝ :=
  1.0 * specRatingFactor genome * specContractivityBonus genome *
    specDiversityFactor genome

/-! ## Matrix decomposition and reconstruction (breeding.ts) -/

/-- JS `Math.atan2(y, x)`, the argument of the complex number `x + y i`. -/
def atan2 (y x : ℝ) : ℝ := Complex.arg ⟨x, y⟩

/-- The record returned by `decomposeMatrix`. -/
structure DecompParams where
  scaleX : ℝ
  scaleY : ℝ
  scaleZ : ℝ
  rotationX : ℝ
  rotationY : ℝ
  rotationZ : ℝ
  shearXY : ℝ
  shearXZ : ℝ
  shearYZ : ℝ

open Classical in
/-- decomposeMatrix (breeding.ts:74).  The JS falsy guard `scale || 1`
(denominator fallback when a column norm is 0) is modelled by an explicit
zero test. -/
def decomposeMatrix (m : List ℝ) : DecompParams :=
  let scaleX := Real.sqrt ((m.getD 0 0) ^ 2 + (m.getD 3 0) ^ 2 + (m.getD 6 0) ^ 2)
  let scaleY := Real.sqrt ((m.getD 1 0) ^ 2 + (m.getD 4 0) ^ 2 + (m.getD 7 0) ^ 2)
  let scaleZ := Real.sqrt ((m.getD 2 0) ^ 2 + (m.getD 5 0) ^ 2 + (m.getD 8 0) ^ 2)
  let dX := if scaleX = 0 then 1 else scaleX
  let dY := if scaleY = 0 then 1 else scaleY
  let dZ := if scaleZ = 0 then 1 else scaleZ
  let rotationY := Real.arcsin (-(m.getD 6 0) / dX)
  let rotationX := atan2 ((m.getD 7 0) / dY) ((m.getD 8 0) / dZ)
  let rotationZ := atan2 ((m.getD 3 0) / dX) ((m.getD 0 0) / dX)
  { scaleX := scaleX, scaleY := scaleY, scaleZ := scaleZ,
    rotationX := rotationX, rotationY := rotationY, rotationZ := rotationZ,
    shearXY := (m.getD 1 0) / dY - Real.sin rotationZ,
    shearXZ := (m.getD 2 0) / dZ,
    shearYZ := (m.getD 5 0) / dZ }

/-- reconstructMatrix (breeding.ts:110): rotation matrix from the Euler
angles, then scale per column and shear added to off-diagonal entries. -/
def reconstructMatrix (p : DecompParams) : List ℝ :=
  let cx := Real.cos p.rotationX
  let sx := Real.sin p.rotationX
  let cy := Real.cos p.rotationY
  let sy := Real.sin p.rotationY
  let cz := Real.cos p.rotationZ
  let sz := Real.sin p.rotationZ
  [ (cy * cz) * p.scaleX,
    (-cy * sz) * p.scaleY + p.shearXY * p.scaleY,
    sy * p.scaleZ + p.shearXZ * p.scaleZ,
    (sx * sy * cz + cx * sz) * p.scaleX,
    (-sx * sy * sz + cx * cz) * p.scaleY,
    (-sx * cy) * p.scaleZ + p.shearYZ * p.scaleZ,
    (-cx * sy * cz + sx * sz) * p.scaleX,
    (cx * sy * sz + sx * cz) * p.scaleY,
    (cx * cy) * p.scaleZ ]

/-! ## Crossover operators (breeding.ts)

Randomness: the ambient `Math.random()` is the stream `r : ℕ → ℚ` read at a
threaded index; every call advances the index by one. -/

/-- The four crossover strategies (`CrossoverType` in breeding.ts). -/
inductive CrossoverType where
  | uniform
  | blend
  | parameter
  | singlePoint
deriving DecidableEq

/-- The six mutation strategies (`MutationType` in breeding.ts). -/
inductive MutationType where
  | random
  | structured
  | rotation
  | scale
  | translation
  | color
deriving DecidableEq

/-- randomRange (breeding.ts:332): `Math.random() * (max - min) + min`. -/
def randomRangeR (r : ℕ → ℚ) (mn mx : ℝ) (k : ℕ) : ℝ × ℕ :=
  ((r k : ℝ) * (mx - mn) + mn, k + 1)

/-- Loop body of uniformCrossover (breeding.ts:158): flip a coin, take the
transform of the chosen parent at index `i`, falling back to whichever parent
has one; always pushes exactly one transform (the JS truthiness test on
`source` never fails for `i < max(len a, len b)`). -/
def uniformCrossoverStep (r : ℕ → ℚ) (a b : List AffineTransform3D)
    (acc : List AffineTransform3D × ℕ) (i : ℕ) : List AffineTransform3D × ℕ :=
  let useA := r acc.2 < 0.5
  let source :=
    if useA ∧ i < a.length then a.getD i dTransform
    else if ¬useA ∧ i < b.length then b.getD i dTransform
    else if i < a.length then a.getD i dTransform
    else b.getD i dTransform
  (acc.1 ++ [source], acc.2 + 1)

/-- uniformCrossover (breeding.ts:158). -/
def uniformCrossover (r : ℕ → ℚ) (a b : List AffineTransform3D) (k : ℕ) :
    List AffineTransform3D × ℕ :=
  (List.range (max a.length b.length)).foldl (uniformCrossoverStep r a b) ([], k)

open Classical in
/-- Loop body of blendCrossover (breeding.ts:187) for a fixed `alpha`:
interpolate every numeric field when both parents have a transform at `i`,
otherwise copy the lone transform fading its probability. -/
def blendCrossoverStep (alpha : ℝ) (a b : List AffineTransform3D)
    (acc : List AffineTransform3D) (i : ℕ) : List AffineTransform3D :=
  if i < a.length ∧ i < b.length then
    let tA := a.getD i dTransform
    let tB := b.getD i dTransform
    acc ++ [{ m := tA.m.mapIdx (fun j v => v * alpha + tB.m.getD j 0 * (1 - alpha)),
              tx := tA.tx * alpha + tB.tx * (1 - alpha),
              ty := tA.ty * alpha + tB.ty * (1 - alpha),
              tz := tA.tz * alpha + tB.tz * (1 - alpha),
              probability := tA.probability * alpha + tB.probability * (1 - alpha),
              color := ((round (tA.color.1 * alpha + tB.color.1 * (1 - alpha)) : ℤ),
                        (round (tA.color.2.1 * alpha + tB.color.2.1 * (1 - alpha)) : ℤ),
                        (round (tA.color.2.2 * alpha + tB.color.2.2 * (1 - alpha)) : ℤ)) }]
  else
    let source := if i < a.length then a.getD i dTransform else b.getD i dTransform
    let fadeAlpha := if i < a.length then alpha else 1 - alpha
    acc ++ [{ source with probability := source.probability * fadeAlpha }]

/-- blendCrossover (breeding.ts:187): `alpha` is the supplied blend factor or
one fresh draw; the loop itself draws nothing. -/
def blendCrossover (r : ℕ → ℚ) (a b : List AffineTransform3D)
    (blendFactor : Option ℝ) (k : ℕ) : List AffineTransform3D × ℕ :=
  let ak : ℝ × ℕ :=
    match blendFactor with
    | some bf => (bf, k)
    | none => ((r k : ℝ), k + 1)
  ((List.range (max a.length b.length)).foldl (blendCrossoverStep ak.1 a b) [],
    ak.2)

/-- Loop body of parameterCrossover (breeding.ts:234): when both parents have
a transform at `i`, every numeric field flips its own coin (9 matrix draws,
then tx, ty, tz, probability, 3 color channels); otherwise the lone transform
is copied without consuming draws. -/
def parameterCrossoverStep (r : ℕ → ℚ) (a b : List AffineTransform3D)
    (acc : List AffineTransform3D × ℕ) (i : ℕ) : List AffineTransform3D × ℕ :=
  if i < a.length ∧ i < b.length then
    let tA := a.getD i dTransform
    let tB := b.getD i dTransform
    let k := acc.2
    let k1 := k + tA.m.length
    (acc.1 ++ [{ m := tA.m.mapIdx (fun j v => if r (k + j) < 0.5 then v else tB.m.getD j 0),
                 tx := if r k1 < 0.5 then tA.tx else tB.tx,
                 ty := if r (k1 + 1) < 0.5 then tA.ty else tB.ty,
                 tz := if r (k1 + 2) < 0.5 then tA.tz else tB.tz,
                 probability := if r (k1 + 3) < 0.5 then tA.probability else tB.probability,
                 color := (if r (k1 + 4) < 0.5 then tA.color.1 else tB.color.1,
                           if r (k1 + 5) < 0.5 then tA.color.2.1 else tB.color.2.1,
                           if r (k1 + 6) < 0.5 then tA.color.2.2 else tB.color.2.2) }],
      k1 + 7)
  else
    let source := if i < a.length then a.getD i dTransform else b.getD i dTransform
    (acc.1 ++ [source], acc.2)

/-- parameterCrossover (breeding.ts:234). -/
def parameterCrossover (r : ℕ → ℚ) (a b : List AffineTransform3D) (k : ℕ) :
    List AffineTransform3D × ℕ :=
  (List.range (max a.length b.length)).foldl (parameterCrossoverStep r a b)
    ([], k)

/-- singlePointCrossover (breeding.ts:274): one draw picks the crossover index
in `[0, min(len a, len b))`; the result is A before the index followed by B
from the index on. -/
def singlePointCrossover (r : ℕ → ℚ) (a b : List AffineTransform3D) (k : ℕ) :
    List AffineTransform3D × ℕ :=
  let crossPoint := Nat.floor (r k * (min a.length b.length : ℚ))
  (a.take crossPoint ++ b.drop crossPoint, k + 1)

/-- crossover (breeding.ts:307): dispatch on the crossover type (the `blend`
call site passes no blend factor). -/
def crossover (r : ℕ → ℚ) (a b : FractalGenome3D) (type : CrossoverType)
    (k : ℕ) : List AffineTransform3D × ℕ :=
  match type with
  | CrossoverType.uniform => uniformCrossover r a.transforms b.transforms k
  | CrossoverType.blend => blendCrossover r a.transforms b.transforms none k
  | CrossoverType.parameter => parameterCrossover r a.transforms b.transforms k
  | CrossoverType.singlePoint => singlePointCrossover r a.transforms b.transforms k

/-! ## Mutation operators (breeding.ts) -/

/-- The recurring pattern `base + (Math.random() < p ? randomRange(lo, hi) : 0)`
(one draw for the gate, one more when it fires). -/
def maybeAdd (r : ℕ → ℚ) (p : ℚ) (lo hi : ℝ) (base : ℝ) (k : ℕ) : ℝ × ℕ :=
  if r k < p then
    let rr := randomRangeR r lo hi (k + 1)
    (base + rr.1, rr.2)
  else (base, k + 1)

/-- Clamp a color channel to [0, 255] (`Math.max(0, Math.min(255, x))`). -/
def clamp255 (x : ℝ) : ℝ := max 0 (min 255 x)

/-- The color branch shared by randomMutation/structuredMutation
(breeding.ts:362): with gate probability 0.2 perturb each channel by
`randomRange(-40, 40)` clamped to [0, 255], else copy the color. -/
def maybeColor (r : ℕ → ℚ) (c : ℝ × ℝ × ℝ) (k : ℕ) : (ℝ × ℝ × ℝ) × ℕ :=
  if r k < 0.2 then
    let r1 := randomRangeR r (-40) 40 (k + 1)
    let r2 := randomRangeR r (-40) 40 r1.2
    let r3 := randomRangeR r (-40) 40 r2.2
    ((clamp255 (c.1 + r1.1), clamp255 (c.2.1 + r2.1), clamp255 (c.2.2 + r3.1)),
      r3.2)
  else (c, k + 1)

/-- The matrix loop of randomMutation (breeding.ts:347): each of the 9 cells
has a 50% chance of a `randomRange(-strength, strength)` perturbation. -/
def randomMutationMatrix (r : ℕ → ℚ) (strength : ℝ) (m : List ℝ) (k : ℕ) :
    List ℝ × ℕ :=
  (List.range 9).foldl (fun acc i =>
    if r acc.2 < 0.5 then
      let rr := randomRangeR r (-strength) strength (acc.2 + 1)
      (acc.1.set i (acc.1.getD i 0 + rr.1), rr.2)
    else (acc.1, acc.2 + 1)) (m, k)

/-- randomMutation (breeding.ts:340). -/
def randomMutation (r : ℕ → ℚ) (t : AffineTransform3D) (strength : ℝ)
    (k : ℕ) : AffineTransform3D × ℕ :=
  let mk := randomMutationMatrix r strength t.m k
  let m2 := enforceContractivity mk.1 0.85
  let txp := maybeAdd r 0.4 (-(strength * 2)) (strength * 2) t.tx mk.2
  let typ := maybeAdd r 0.4 (-(strength * 2)) (strength * 2) t.ty txp.2
  let tzp := maybeAdd r 0.4 (-(strength * 2)) (strength * 2) t.tz typ.2
  let pp := maybeAdd r 0.3 (-0.2) 0.2 t.probability tzp.2
  let cp := maybeColor r t.color pp.2
  ({ m := m2, tx := txp.1, ty := typ.1, tz := tzp.1,
     probability := max 0.1 pp.1, color := cp.1 }, cp.2)

/-- The scale block of structuredMutation (breeding.ts:381): with gate 0.4,
perturb all three scales, each clamped to [0.1, 0.85]. -/
def structuredScale (r : ℕ → ℚ) (strength : ℝ) (p : DecompParams) (k : ℕ) :
    DecompParams × ℕ :=
  if r k < 0.4 then
    let r1 := randomRangeR r (-strength) strength (k + 1)
    let r2 := randomRangeR r (-strength) strength r1.2
    let r3 := randomRangeR r (-strength) strength r2.2
    ({ p with scaleX := min 0.85 (max 0.1 (p.scaleX + r1.1)),
              scaleY := min 0.85 (max 0.1 (p.scaleY + r2.1)),
              scaleZ := min 0.85 (max 0.1 (p.scaleZ + r3.1)) }, r3.2)
  else (p, k + 1)

/-- The rotation block of structuredMutation (breeding.ts:388): with gate 0.5,
perturb all three rotation angles by ±strength·π. -/
def structuredRotation (r : ℕ → ℚ) (strength : ℝ) (p : DecompParams) (k : ℕ) :
    DecompParams × ℕ :=
  if r k < 0.5 then
    let r1 := randomRangeR r (-(strength * Real.pi)) (strength * Real.pi) (k + 1)
    let r2 := randomRangeR r (-(strength * Real.pi)) (strength * Real.pi) r1.2
    let r3 := randomRangeR r (-(strength * Real.pi)) (strength * Real.pi) r2.2
    ({ p with rotationX := p.rotationX + r1.1,
              rotationY := p.rotationY + r2.1,
              rotationZ := p.rotationZ + r3.1 }, r3.2)
  else (p, k + 1)

/-- The shear block of structuredMutation (breeding.ts:395): with gate 0.3,
perturb each shear by ±strength·0.5 clamped to [-0.3, 0.3]. -/
def structuredShear (r : ℕ → ℚ) (strength : ℝ) (p : DecompParams) (k : ℕ) :
    DecompParams × ℕ :=
  if r k < 0.3 then
    let r1 := randomRangeR r (-(strength * 0.5)) (strength * 0.5) (k + 1)
    let r2 := randomRangeR r (-(strength * 0.5)) (strength * 0.5) r1.2
    let r3 := randomRangeR r (-(strength * 0.5)) (strength * 0.5) r2.2
    ({ p with shearXY := max (-0.3) (min 0.3 (p.shearXY + r1.1)),
              shearXZ := max (-0.3) (min 0.3 (p.shearXZ + r2.1)),
              shearYZ := max (-0.3) (min 0.3 (p.shearYZ + r3.1)) }, r3.2)
  else (p, k + 1)

/-- structuredMutation (breeding.ts:374): decompose, mutate components,
reconstruct, enforce contractivity; translation/probability/color as in
randomMutation but with ±strength translation steps. -/
def structuredMutation (r : ℕ → ℚ) (t : AffineTransform3D) (strength : ℝ)
    (k : ℕ) : AffineTransform3D × ℕ :=
  let p0 := decomposeMatrix t.m
  let p1 := structuredScale r strength p0 k
  let p2 := structuredRotation r strength p1.1 p1.2
  let p3 := structuredShear r strength p2.1 p2.2
  let m2 := enforceContractivity (reconstructMatrix p3.1) 0.85
  let txp := maybeAdd r 0.4 (-strength) strength t.tx p3.2
  let typ := maybeAdd r 0.4 (-strength) strength t.ty txp.2
  let tzp := maybeAdd r 0.4 (-strength) strength t.tz typ.2
  let pp := maybeAdd r 0.3 (-0.2) 0.2 t.probability tzp.2
  let cp := maybeColor r t.color pp.2
  ({ m := m2, tx := txp.1, ty := typ.1, tz := tzp.1,
     probability := max 0.1 pp.1, color := cp.1 }, cp.2)

/-- rotationMutation (breeding.ts:421): always perturb the three rotation
angles; everything but the matrix copied unchanged. -/
def rotationMutation (r : ℕ → ℚ) (t : AffineTransform3D) (strength : ℝ)
    (k : ℕ) : AffineTransform3D × ℕ :=
  let p0 := decomposeMatrix t.m
  let r1 := randomRangeR r (-(strength * Real.pi)) (strength * Real.pi) k
  let r2 := randomRangeR r (-(strength * Real.pi)) (strength * Real.pi) r1.2
  let r3 := randomRangeR r (-(strength * Real.pi)) (strength * Real.pi) r2.2
  let p1 := { p0 with rotationX := p0.rotationX + r1.1,
                      rotationY := p0.rotationY + r2.1,
                      rotationZ := p0.rotationZ + r3.1 }
  ({ t with m := enforceContractivity (reconstructMatrix p1) 0.85 }, r3.2)

/-- scaleMutation (breeding.ts:444): 50% a single uniform factor `1±strength`,
else an independent ±strength step per axis; each scale clamped to
[0.1, 0.85]. -/
def scaleMutation (r : ℕ → ℚ) (t : AffineTransform3D) (strength : ℝ)
    (k : ℕ) : AffineTransform3D × ℕ :=
  let p0 := decomposeMatrix t.m
  let pk : DecompParams × ℕ :=
    if r k < 0.5 then
      let rf := randomRangeR r (-strength) strength (k + 1)
      let scaleFactor := 1 + rf.1
      ({ p0 with scaleX := min 0.85 (max 0.1 (p0.scaleX * scaleFactor)),
                 scaleY := min 0.85 (max 0.1 (p0.scaleY * scaleFactor)),
                 scaleZ := min 0.85 (max 0.1 (p0.scaleZ * scaleFactor)) }, rf.2)
    else
      let r1 := randomRangeR r (-strength) strength (k + 1)
      let r2 := randomRangeR r (-strength) strength r1.2
      let r3 := randomRangeR r (-strength) strength r2.2
      ({ p0 with scaleX := min 0.85 (max 0.1 (p0.scaleX + r1.1)),
                 scaleY := min 0.85 (max 0.1 (p0.scaleY + r2.1)),
                 scaleZ := min 0.85 (max 0.1 (p0.scaleZ + r3.1)) }, r3.2)
  ({ t with m := enforceContractivity (reconstructMatrix pk.1) 0.85 }, pk.2)

/-- translationMutation (breeding.ts:477): perturb each translation component
by ±strength; matrix and color copied. -/
def translationMutation (r : ℕ → ℚ) (t : AffineTransform3D) (strength : ℝ)
    (k : ℕ) : AffineTransform3D × ℕ :=
  let r1 := randomRangeR r (-strength) strength k
  let r2 := randomRangeR r (-strength) strength r1.2
  let r3 := randomRangeR r (-strength) strength r2.2
  ({ t with tx := t.tx + r1.1, ty := t.ty + r2.1, tz := t.tz + r3.1 }, r3.2)

/-- colorMutation (breeding.ts:494): perturb each channel by ±strength,
clamped to [0, 255]. -/
def colorMutation (r : ℕ → ℚ) (t : AffineTransform3D) (strength : ℝ)
    (k : ℕ) : AffineTransform3D × ℕ :=
  let r1 := randomRangeR r (-strength) strength k
  let r2 := randomRangeR r (-strength) strength r1.2
  let r3 := randomRangeR r (-strength) strength r2.2
  ({ t with color := (clamp255 (t.color.1 + r1.1), clamp255 (t.color.2.1 + r2.1),
                      clamp255 (t.color.2.2 + r3.1)) }, r3.2)

/-- mutateTransform (breeding.ts:512): dispatch on the mutation type; the
color strategy receives `strength * 400`. -/
def mutateTransform (r : ℕ → ℚ) (t : AffineTransform3D) (type : MutationType)
    (strength : ℝ) (k : ℕ) : AffineTransform3D × ℕ :=
  match type with
  | MutationType.random => randomMutation r t strength k
  | MutationType.structured => structuredMutation r t strength k
  | MutationType.rotation => rotationMutation r t strength k
  | MutationType.scale => scaleMutation r t strength k
  | MutationType.translation => translationMutation r t strength k
  | MutationType.color => colorMutation r t (strength * 400) k

/-! ## Seeded genome construction (genome3d.ts)

These functions draw from the seeded mulberry32 source; the threaded `s : ℕ`
is the `currentSeed` state. -/

/-- generateId (genome3d.ts:5 / evolution3d.ts:152):
`fractal3d-${Date.now()}-${idCounter++}`.  The caller bumps the counter. -/
def generateId (time ctr : ℕ) : String :=
  "fractal3d-" ++ toString time ++ "-" ++ toString ctr

/-- randomRange (genome3d.ts:31) over the seeded source. -/
def randomRangeS (mn mx : ℝ) (s : ℕ) : ℝ × ℕ :=
  let d := seededRandom s
  ((d.1 : ℝ) * (mx - mn) + mn, d.2)

/-- JS `%` on rationals; for the nonnegative operands used here it is
`a - b * floor (a / b)`. -/
def jsModQ (a b : ℚ) : ℚ := a - b * ((⌊a / b⌋ : ℤ) : ℚ)

/-- randomColor (genome3d.ts:35): HSL draw (hue in [0,360), saturation in
[0.6,1), lightness in [0.4,0.7)) converted to rounded RGB channels. -/
def randomColorS (s : ℕ) : (ℝ × ℝ × ℝ) × ℕ :=
  let hD := seededRandom s
  let h : ℚ := hD.1 * 360
  let sat := randomRangeS 0.6 1 hD.2
  let lig := randomRangeS 0.4 0.7 sat.2
  let c : ℝ := (1 - |2 * lig.1 - 1|) * sat.1
  let x : ℝ := c * (1 - |((jsModQ (h / 60) 2 : ℚ) : ℝ) - 1|)
  let mm : ℝ := lig.1 - c / 2
  let rgb : ℝ × ℝ × ℝ :=
    if h < 60 then (c, x, 0)
    else if h < 120 then (x, c, 0)
    else if h < 180 then (0, c, x)
    else if h < 240 then (0, x, c)
    else if h < 300 then (x, 0, c)
    else (c, 0, x)
  ((((round ((rgb.1 + mm) * 255) : ℤ) : ℝ), ((round ((rgb.2.1 + mm) * 255) : ℤ) : ℝ),
    ((round ((rgb.2.2 + mm) * 255) : ℤ) : ℝ)), lig.2)

/-- createRotationMatrix (genome3d.ts:59): combined X-Y-Z rotation matrix
times scale. -/
def createRotationMatrix (angleX angleY angleZ scale : ℝ) : List ℝ :=
  let cx := Real.cos angleX
  let sx := Real.sin angleX
  let cy := Real.cos angleY
  let sy := Real.sin angleY
  let cz := Real.cos angleZ
  let sz := Real.sin angleZ
  [ scale * cy * cz,
    scale * (sx * sy * cz - cx * sz),
    scale * (cx * sy * cz + sx * sz),
    scale * cy * sz,
    scale * (sx * sy * sz + cx * cz),
    scale * (cx * sy * sz - sx * cz),
    scale * (-sy),
    scale * (sx * cy),
    scale * (cx * cy) ]

/-- createRandomTransform3D (genome3d.ts:83): seeded random rotation matrix
with a shared shear added to entries 1 and 3, random translation, probability
in [0.3,1) and a random color. -/
def createRandomTransform3D (s : ℕ) : AffineTransform3D × ℕ :=
  let sc := randomRangeS 0.2 0.6 s
  let ax := randomRangeS 0 (Real.pi * 2) sc.2
  let ay := randomRangeS 0 (Real.pi * 2) ax.2
  let az := randomRangeS 0 (Real.pi * 2) ay.2
  let m0 := createRotationMatrix ax.1 ay.1 az.1 sc.1
  let sh := randomRangeS (-0.2) 0.2 az.2
  let m1 := (m0.set 1 (m0.getD 1 0 + sh.1)).set 3 (m0.getD 3 0 + sh.1)
  let txv := randomRangeS (-0.5) 0.5 sh.2
  let tyv := randomRangeS (-0.5) 0.5 txv.2
  let tzv := randomRangeS (-0.5) 0.5 tyv.2
  let pv := randomRangeS 0.3 1 tzv.2
  let cv := randomColorS pv.2
  ({ m := m1, tx := txv.1, ty := tyv.1, tz := tzv.1, probability := pv.1,
     color := cv.1 }, cv.2)

/-- createRandomGenome3D (genome3d.ts:107): `floor(randomRange(3,7))`
transforms, all freshly drawn; no parents. -/
def createRandomGenome3D (generation : ℕ) (time ctr s : ℕ) :
    FractalGenome3D × ℕ × ℕ :=
  let nr := randomRangeS 3 7 s
  let numTransforms := Nat.floor nr.1
  let ts := (List.range numTransforms).foldl
    (fun (acc : List AffineTransform3D × ℕ) _ =>
      let ct := createRandomTransform3D acc.2
      (acc.1 ++ [ct.1], ct.2)) ([], nr.2)
  ({ id := generateId time ctr, transforms := ts.1, generation := generation,
     parentIds := [] }, ctr + 1, ts.2)

/-- Loop body of crossover3D (genome3d.ts:179): one coin flip per index with
the four-way fallback chain of the source (the final arm is unreachable for
`i < max(len a, len b)` but kept for faithfulness). -/
def crossover3DStep (r : ℕ → ℚ) (a b : List AffineTransform3D)
    (acc : List AffineTransform3D × ℕ) (i : ℕ) : List AffineTransform3D × ℕ :=
  let useA := r acc.2 < 0.5
  if useA ∧ i < a.length then (acc.1 ++ [a.getD i dTransform], acc.2 + 1)
  else if ¬useA ∧ i < b.length then (acc.1 ++ [b.getD i dTransform], acc.2 + 1)
  else if i < a.length then (acc.1 ++ [a.getD i dTransform], acc.2 + 1)
  else if i < b.length then (acc.1 ++ [b.getD i dTransform], acc.2 + 1)
  else (acc.1, acc.2 + 1)

/-- The `while (transforms.length < 2)` padding loop of crossover3D
(genome3d.ts:213); at most two pads are ever needed, bounded by `fuel`. -/
def padTo2 : ℕ → List AffineTransform3D → ℕ → List AffineTransform3D × ℕ
  | 0, ts, s => (ts, s)
  | fuel + 1, ts, s =>
    if ts.length < 2 then
      let ct := createRandomTransform3D s
      padTo2 fuel (ts ++ [ct.1]) ct.2
    else (ts, s)

/-- crossover3D (genome3d.ts:175): per-index uniform pick, padded to at least
two transforms with seeded random transforms; child generation is
`max(parent generations) + 1`.  Returns (child, counter, Math-stream index,
seeded state). -/
def crossover3D (r : ℕ → ℚ) (a b : FractalGenome3D) (time ctr k s : ℕ) :
    FractalGenome3D × ℕ × ℕ × ℕ :=
  let loop := (List.range (max a.transforms.length b.transforms.length)).foldl
    (crossover3DStep r a.transforms b.transforms) ([], k)
  let padded := padTo2 2 loop.1 s
  ({ id := generateId time ctr, transforms := padded.1,
     generation := max a.generation b.generation + 1,
     parentIds := [a.id, b.id] }, ctr + 1, loop.2, padded.2)

/-! ## Evolution configuration and per-genome mutation (evolution3d.ts) -/

/-- EvolutionConfig3D (evolution3d.ts:17).  Rates that gate control flow are
exact decimals, kept in ℚ. -/
structure EvolutionConfig3D where
  populationSize : ℕ
  mutationRate : ℚ
  mutationStrength : ℝ
  mutationType : MutationType
  crossoverRate : ℚ
  crossoverType : CrossoverType
  eliteCount : ℕ
  randomInjection : ℕ
  tournamentSize : ℕ
  enforceContractivity : Bool
  allowStructuralMutation : Bool
  structuralMutationRate : ℚ

/-- defaultConfig (evolution3d.ts:41).  `evolveGeneration3D` takes a partial
override spread over this record; the model passes the merged record. -/
def defaultConfig : EvolutionConfig3D :=
  { populationSize := 16, mutationRate := 0.8, mutationStrength := 0.12,
    mutationType := MutationType.structured, crossoverRate := 0.6,
    crossoverType := CrossoverType.blend, eliteCount := 2,
    randomInjection := 1, tournamentSize := 3, enforceContractivity := true,
    allowStructuralMutation := true, structuralMutationRate := 0.08 }

/-- randomColor (evolution3d.ts:160): same HSL scheme as genome3d's but drawn
from the ambient `Math.random()` stream. -/
def randomColorE (r : ℕ → ℚ) (k : ℕ) : (ℝ × ℝ × ℝ) × ℕ :=
  let h : ℚ := r k * 360
  let sat := randomRangeR r 0.6 1 (k + 1)
  let lig := randomRangeR r 0.4 0.7 sat.2
  let c : ℝ := (1 - |2 * lig.1 - 1|) * sat.1
  let x : ℝ := c * (1 - |((jsModQ (h / 60) 2 : ℚ) : ℝ) - 1|)
  let mm : ℝ := lig.1 - c / 2
  let rgb : ℝ × ℝ × ℝ :=
    if h < 60 then (c, x, 0)
    else if h < 120 then (x, c, 0)
    else if h < 180 then (0, c, x)
    else if h < 240 then (0, x, c)
    else if h < 300 then (x, 0, c)
    else (c, 0, x)
  ((((round ((rgb.1 + mm) * 255) : ℤ) : ℝ), ((round ((rgb.2.1 + mm) * 255) : ℤ) : ℝ),
    ((round ((rgb.2.2 + mm) * 255) : ℤ) : ℝ)), lig.2)

/-- createRandomTransform (evolution3d.ts:184): rotation matrix without
shear, drawn from the ambient stream. -/
def createRandomTransformE (r : ℕ → ℚ) (k : ℕ) : AffineTransform3D × ℕ :=
  let sc := randomRangeR r 0.2 0.6 k
  let ax := randomRangeR r 0 (Real.pi * 2) sc.2
  let ay := randomRangeR r 0 (Real.pi * 2) ax.2
  let az := randomRangeR r 0 (Real.pi * 2) ay.2
  let m0 := createRotationMatrix ax.1 ay.1 az.1 sc.1
  let txv := randomRangeR r (-0.5) 0.5 az.2
  let tyv := randomRangeR r (-0.5) 0.5 txv.2
  let tzv := randomRangeR r (-0.5) 0.5 tyv.2
  let pv := randomRangeR r 0.3 1 tzv.2
  let cv := randomColorE r pv.2
  ({ m := m0, tx := txv.1, ty := tyv.1, tz := tzv.1, probability := pv.1,
     color := cv.1 }, cv.2)

/-- The structural-mutation block of mutateGenome (evolution3d.ts:234): the
source gates removal by `Math.random() < rate && length > 2`, and otherwise
(else-if) gates an addition by a second draw and `length < 8`. -/
def structuralStep (r : ℕ → ℚ) (cfg : EvolutionConfig3D)
    (ts : List AffineTransform3D) (k : ℕ) : List AffineTransform3D × ℕ :=
  if r k < cfg.structuralMutationRate ∧ ts.length > 2 then
    let idx := Nat.floor (r (k + 1) * (ts.length : ℚ))
    (ts.eraseIdx idx, k + 2)
  else if r (k + 1) < cfg.structuralMutationRate ∧ ts.length < 8 then
    let ct := createRandomTransformE r (k + 2)
    (ts ++ [ct.1], ct.2)
  else (ts, k + 2)

/-- The transform pipeline of mutateGenome (evolution3d.ts:221-243): mutate
every transform, optionally re-enforce contractivity, optionally apply a
structural mutation. -/
def mutateGenomeTransforms (r : ℕ → ℚ) (genome : FractalGenome3D)
    (cfg : EvolutionConfig3D) (k : ℕ) : List AffineTransform3D × ℕ :=
  let tk := genome.transforms.foldl
    (fun (acc : List AffineTransform3D × ℕ) t =>
      let mt := mutateTransform r t cfg.mutationType cfg.mutationStrength acc.2
      (acc.1 ++ [mt.1], mt.2)) ([], k)
  let ts1 := if cfg.enforceContractivity then
      tk.1.map (fun t => { t with m := enforceContractivity t.m 0.85 })
    else tk.1
  if cfg.allowStructuralMutation then structuralStep r cfg ts1 tk.2
  else (ts1, tk.2)

/-- mutateGenome (evolution3d.ts:217): the transform pipeline above wrapped
with a fresh id, `generation + 1` and a single parent id. -/
def mutateGenome (r : ℕ → ℚ) (genome : FractalGenome3D)
    (cfg : EvolutionConfig3D) (time ctr k : ℕ) : FractalGenome3D × ℕ × ℕ :=
  let st := mutateGenomeTransforms r genome cfg k
  ({ id := generateId time ctr, transforms := st.1,
     generation := genome.generation + 1, parentIds := [genome.id] },
    ctr + 1, st.2)

/-! ## Selection operators and the generation scheduler (evolution3d.ts) -/

open Classical in
/-- The subtraction walk of fitnessProportionateSelect (evolution3d.ts:104):
subtract each genome's fitness from the running draw, returning the first
genome at which the draw drops to 0 or below. -/
def rouletteWalk : List FractalGenome3D → ℝ → Option FractalGenome3D
  | [], _ => none
  | g :: rest, rv =>
    if rv - calculateFitness g ≤ 0 then some g
    else rouletteWalk rest (rv - calculateFitness g)

/-- fitnessProportionateSelect (evolution3d.ts:100): roulette-wheel draw over
total fitness, falling back to the last genome. -/
def fitnessProportionateSelect (r : ℕ → ℚ) (pop : List FractalGenome3D)
    (k : ℕ) : FractalGenome3D × ℕ :=
  let totalFitness := (pop.map calculateFitness).foldl (· + ·) 0
  let rv := (r k : ℝ) * totalFitness
  ((rouletteWalk pop rv).getD (pop.getD (pop.length - 1) dGenome), k + 1)

open Classical in
/-- The `reduce` of tournamentSelect (evolution3d.ts:128): keep the current
element only when strictly fitter than the best so far. -/
def tournamentReduce (t : List FractalGenome3D) : FractalGenome3D :=
  match t with
  | [] => dGenome
  | h :: rest => rest.foldl
      (fun best current =>
        if calculateFitness current > calculateFitness best then current
        else best) h

/-- tournamentSelect (evolution3d.ts:116): draw `tournamentSize` indices
uniformly with replacement and return the fittest pick. -/
def tournamentSelect (r : ℕ → ℚ) (pop : List FractalGenome3D)
    (tournamentSize : ℕ) (k : ℕ) : FractalGenome3D × ℕ :=
  let tk := (List.range tournamentSize).foldl
    (fun (acc : List FractalGenome3D × ℕ) _ =>
      let idx := Nat.floor (r acc.2 * (pop.length : ℚ))
      (acc.1 ++ [pop.getD idx dGenome], acc.2 + 1)) ([], k)
  (tournamentReduce tk.1, tk.2)

/-- selectParent (evolution3d.ts:136). -/
def selectParent (r : ℕ → ℚ) (pop : List FractalGenome3D)
    (cfg : EvolutionConfig3D) (k : ℕ) : FractalGenome3D × ℕ :=
  if cfg.tournamentSize > 1 then tournamentSelect r pop cfg.tournamentSize k
  else fitnessProportionateSelect r pop k

/-- `Math.max(...population.map(g => g.generation))` (evolution3d.ts:263) for
the nonempty populations the scheduler is defined on. -/
def maxGeneration (pop : List FractalGenome3D) : ℕ :=
  (pop.map (fun g => g.generation)).foldl max 0

open Classical in
/-- The fitness sort of evolveGeneration3D (evolution3d.ts:266):
`sort((a, b) => fitness(b) - fitness(a))`, i.e. descending fitness. -/
def sortByFitnessDesc (pop : List FractalGenome3D) : List FractalGenome3D :=
  pop.mergeSort (fun a b => decide (calculateFitness b ≤ calculateFitness a))

/-- The elitism loop of evolveGeneration3D (evolution3d.ts:271): for each of
the top `eliteCount` positions, an up-rated genome is lightly mutated
(strength × 0.3, structural rate 0) and re-tagged with `generation`.  State:
(new population, id counter, stream index). -/
def elitesLoop (r : ℕ → ℚ) (cfg : EvolutionConfig3D)
    (sorted : List FractalGenome3D) (generation time : ℕ) (ctr k : ℕ) :
    List FractalGenome3D × ℕ × ℕ :=
  (List.range (min cfg.eliteCount sorted.length)).foldl
    (fun (acc : List FractalGenome3D × ℕ × ℕ) i =>
      if (sorted.getD i dGenome).rating = some Rating.up then
        let mg := mutateGenome r (sorted.getD i dGenome)
          { cfg with mutationStrength := cfg.mutationStrength * 0.3,
                     structuralMutationRate := 0 } time acc.2.1 acc.2.2
        (acc.1 ++ [{ mg.1 with generation := generation }], mg.2.1, mg.2.2)
      else acc) ([], ctr, k)

/-- The random-injection loop of evolveGeneration3D (evolution3d.ts:284).
State: (new population, id counter, seeded state). -/
def injectionLoop (cfg : EvolutionConfig3D) (generation time : ℕ)
    (start : List FractalGenome3D) (ctr s : ℕ) :
    List FractalGenome3D × ℕ × ℕ :=
  (List.range cfg.randomInjection).foldl
    (fun (acc : List FractalGenome3D × ℕ × ℕ) _ =>
      let cg := createRandomGenome3D generation time acc.2.1 acc.2.2
      (acc.1 ++ [cg.1], cg.2.1, cg.2.2)) (start, ctr, s)

/-- The breeding loop of evolveGeneration3D (evolution3d.ts:289): while the
new population is short, pick parent(s), cross over with probability
`crossoverRate` (then mutate with probability `mutationRate`), otherwise
mutate parent1 directly; every child is re-tagged with `generation`.  Each
iteration appends exactly one genome, so `populationSize` fuel suffices.
State: (new population, id counter, stream index, seeded state). -/
def fillLoop (r : ℕ → ℚ) (pop : List FractalGenome3D)
    (cfg : EvolutionConfig3D) (generation time : ℕ) :
    ℕ → List FractalGenome3D → ℕ → ℕ → ℕ →
    List FractalGenome3D × ℕ × ℕ × ℕ
  | 0, acc, ctr, k, s => (acc, ctr, k, s)
  | fuel + 1, acc, ctr, k, s =>
    if acc.length < cfg.populationSize then
      let p1 := selectParent r pop cfg k
      if r p1.2 < cfg.crossoverRate then
        let p2 := selectParent r pop cfg (p1.2 + 1)
        let ct := crossover r p1.1 p2.1 cfg.crossoverType p2.2
        let childTransforms :=
          if cfg.enforceContractivity then
            ct.1.map (fun t => { t with m := enforceContractivity t.m 0.85 })
          else ct.1
        let child : FractalGenome3D :=
          { id := generateId time ctr, transforms := childTransforms,
            generation := generation, parentIds := [p1.1.id, p2.1.id] }
        if r ct.2 < cfg.mutationRate then
          let mg := mutateGenome r child cfg time (ctr + 1) (ct.2 + 1)
          fillLoop r pop cfg generation time fuel
            (acc ++ [{ mg.1 with generation := generation }]) mg.2.1 mg.2.2 s
        else
          fillLoop r pop cfg generation time fuel
            (acc ++ [child]) (ctr + 1) (ct.2 + 1) s
      else
        let mg := mutateGenome r p1.1 cfg time ctr (p1.2 + 1)
        fillLoop r pop cfg generation time fuel
          (acc ++ [{ mg.1 with generation := generation }]) mg.2.1 mg.2.2 s
    else (acc, ctr, k, s)

/-- evolveGeneration3D (evolution3d.ts:257): one generation step — next
generation index, fitness sort, elitism, random injection, breeding fill.
Returns (new population, id counter, stream index, seeded state). -/
def evolveGeneration3D (r : ℕ → ℚ) (population : List FractalGenome3D)
    (cfg : EvolutionConfig3D) (time ctr k s : ℕ) :
    List FractalGenome3D × ℕ × ℕ × ℕ :=
  let generation := maxGeneration population + 1
  let sorted := sortByFitnessDesc population
  let el := elitesLoop r cfg sorted generation time ctr k
  let inj := injectionLoop cfg generation time el.1 el.2.1 s
  fillLoop r population cfg generation time cfg.populationSize
    inj.1 inj.2.1 el.2.2 inj.2.2

/-! ## Chaos-game point generator (ifs3d.ts)

ifs3d.ts is the one module that explicitly tests `isFinite`, so here the JS
`number` is modelled by `JNum`: a real number or a single non-finite value
(collapsing NaN and ±Infinity) that is propagated by arithmetic.  Comparisons
against a non-finite value behave like NaN comparisons (false). -/

/-- A JS number for the chaos-game module: finite real or non-finite. -/
inductive JNum where
  | num : ℝ → JNum
  | nonfin : JNum

/-- JS addition: non-finite operands propagate. -/
def jAdd : JNum → JNum → JNum
  | JNum.num a, JNum.num b => JNum.num (a + b)
  | _, _ => JNum.nonfin

/-- JS subtraction: non-finite operands propagate. -/
def jSub : JNum → JNum → JNum
  | JNum.num a, JNum.num b => JNum.num (a - b)
  | _, _ => JNum.nonfin

/-- JS multiplication: non-finite operands propagate. -/
def jMul : JNum → JNum → JNum
  | JNum.num a, JNum.num b => JNum.num (a * b)
  | _, _ => JNum.nonfin

/-- JS `isFinite`. -/
def JNum.isFinite : JNum → Bool
  | JNum.num _ => true
  | JNum.nonfin => false

open Classical in
/-- The `r <= 0` test of selectTransform; false on a non-finite value (as for
NaN in JS). -/
def jLeZero : JNum → Bool
  | JNum.num a => decide (a ≤ 0)
  | JNum.nonfin => false

/-- The value of a JNum known to be finite (0 on the unreachable arm). -/
def toR : JNum → ℝ
  | JNum.num a => a
  | JNum.nonfin => 0

/-- A transform as read by ifs3d.ts. -/
structure JTransform where
  m : List JNum
  tx : JNum
  ty : JNum
  tz : JNum
  probability : JNum
  color : ℝ × ℝ × ℝ

/-- A genome as read by generateFractalPoints, which uses only the transform
list of its argument. -/
structure JGenome where
  transforms : List JTransform

/-- Out-of-bounds default transform (the source never reads out of bounds). -/
def dJTransform : JTransform :=
  { m := [], tx := JNum.num 0, ty := JNum.num 0, tz := JNum.num 0,
    probability := JNum.num 0, color := (0, 0, 0) }

/-- The subtraction walk of selectTransform (ifs3d.ts:20): subtract each
probability; return the first index where the draw drops to ≤ 0. -/
def selGo : List JTransform → JNum → ℕ → Option ℕ
  | [], _, _ => none
  | t :: rest, rv, i =>
    let rv2 := jSub rv t.probability
    if jLeZero rv2 then some i else selGo rest rv2 (i + 1)

/-- selectTransform (ifs3d.ts:16): weighted index draw with fallback to the
last index. -/
def selectTransform (ts : List JTransform) (rq : ℚ) : ℕ :=
  let totalProb := ts.foldl (fun sum t => jAdd sum t.probability) (JNum.num 0)
  let rv := jMul (JNum.num (rq : ℝ)) totalProb
  (selGo ts rv 0).getD (ts.length - 1)

/-- applyTransform3D (ifs3d.ts:27): rows 0-2, 3-5, 6-8 of the matrix plus the
translation. -/
def applyTransform3D (x y z : JNum) (t : JTransform) : JNum × JNum × JNum :=
  let g := fun i => t.m.getD i (JNum.num 0)
  (jAdd (jAdd (jAdd (jMul (g 0) x) (jMul (g 1) y)) (jMul (g 2) z)) t.tx,
   jAdd (jAdd (jAdd (jMul (g 3) x) (jMul (g 4) y)) (jMul (g 5) z)) t.ty,
   jAdd (jAdd (jAdd (jMul (g 6) x) (jMul (g 7) y)) (jMul (g 8) z)) t.tz)

/-- An emitted chaos-game sample (coordinates are finite when pushed). -/
structure ChaosPoint where
  x : ℝ
  y : ℝ
  z : ℝ
  color : ℝ × ℝ × ℝ

/-- Running `Math.min` with Infinity start, modelled as an optional bound. -/
def omin (b : Option ℝ) (v : ℝ) : Option ℝ :=
  match b with
  | none => some v
  | some a => some (min a v)

/-- Running `Math.max` with -Infinity start, modelled as an optional bound. -/
def omax (b : Option ℝ) (v : ℝ) : Option ℝ :=
  match b with
  | none => some v
  | some a => some (max a v)

/-- The loop state of generateFractalPoints: current point, stream index,
emitted points, running bounds. -/
structure ChaosState where
  x : JNum
  y : JNum
  z : JNum
  k : ℕ
  pts : List ChaosPoint
  minX : Option ℝ
  maxX : Option ℝ
  minY : Option ℝ
  maxY : Option ℝ
  minZ : Option ℝ
  maxZ : Option ℝ

/-- The initial state (ifs3d.ts:56): a uniformly random starting point in
[-1,1)^3 (three draws). -/
def chaosInit (r : ℕ → ℚ) : ChaosState :=
  { x := JNum.num ((r 0 : ℝ) * 2 - 1), y := JNum.num ((r 1 : ℝ) * 2 - 1),
    z := JNum.num ((r 2 : ℝ) * 2 - 1), k := 3, pts := [],
    minX := none, maxX := none, minY := none, maxY := none,
    minZ := none, maxZ := none }

/-- One iteration of the chaos game (ifs3d.ts:65-87): select a transform (one
draw), apply it; on a non-finite coordinate discard and reseed from three
fresh draws and continue; otherwise move to the new point and, once the
iteration count reaches the skip count, record it (tagged with the selected
transform's color) and update the bounds. -/
def chaosStep (ts : List JTransform) (skip : ℕ) (r : ℕ → ℚ)
    (st : ChaosState) (i : ℕ) : ChaosState :=
  let tIdx := selectTransform ts (r st.k)
  let t := ts.getD tIdx dJTransform
  let p := applyTransform3D st.x st.y st.z t
  if p.1.isFinite = false ∨ p.2.1.isFinite = false ∨ p.2.2.isFinite = false then
    { st with x := JNum.num ((r (st.k + 1) : ℝ) * 2 - 1),
              y := JNum.num ((r (st.k + 2) : ℝ) * 2 - 1),
              z := JNum.num ((r (st.k + 3) : ℝ) * 2 - 1),
              k := st.k + 4 }
  else if skip ≤ i then
    { st with x := p.1, y := p.2.1, z := p.2.2, k := st.k + 1,
              pts := st.pts ++ [{ x := toR p.1, y := toR p.2.1, z := toR p.2.2,
                                  color := t.color }],
              minX := omin st.minX (toR p.1), maxX := omax st.maxX (toR p.1),
              minY := omin st.minY (toR p.2.1), maxY := omax st.maxY (toR p.2.1),
              minZ := omin st.minZ (toR p.2.2), maxZ := omax st.maxZ (toR p.2.2) }
  else { st with x := p.1, y := p.2.1, z := p.2.2, k := st.k + 1 }

/-- The first `n` iterations of the chaos game. -/
def chaosRun (ts : List JTransform) (skip : ℕ) (r : ℕ → ℚ) (n : ℕ) :
    ChaosState :=
  (List.range n).foldl (chaosStep ts skip r) (chaosInit r)

/-- The transform index selected at iteration `i` (the draw consumed at the
state reached after `i` iterations). -/
def chaosSelIdx (ts : List JTransform) (skip : ℕ) (r : ℕ → ℚ) (i : ℕ) : ℕ :=
  selectTransform ts (r (chaosRun ts skip r i).k)

/-- The sample emitted at iteration `i` (when `i` is at or past the skip
count and no divergence occurs there). -/
def chaosEmit (ts : List JTransform) (skip : ℕ) (r : ℕ → ℚ) (i : ℕ) :
    ChaosPoint :=
  let st := chaosRun ts skip r i
  let t := ts.getD (chaosSelIdx ts skip r i) dJTransform
  let p := applyTransform3D st.x st.y st.z t
  { x := toR p.1, y := toR p.2.1, z := toR p.2.2, color := t.color }

/-- The result record of generateFractalPoints: flattened positions and
colors plus the sample count. -/
structure GenResult where
  positions : List ℝ
  colors : List ℝ
  count : ℕ

open Classical in
/-- The per-axis range `max - min || 1` (ifs3d.ts:94): 1 for a degenerate
(zero or, on the unreachable no-points path, infinite) range. -/
def jsRange (mn mx : Option ℝ) : ℝ :=
  match mn, mx with
  | some a, some b => if b - a = 0 then 1 else b - a
  | _, _ => 1

/-- The per-axis center `(min + max) / 2` (ifs3d.ts:100). -/
def jsCenter (mn mx : Option ℝ) : ℝ :=
  match mn, mx with
  | some a, some b => (a + b) / 2
  | _, _ => 0

/-- generateFractalPoints (ifs3d.ts:41): empty input or zero surviving points
yield the empty result; otherwise normalize into the unit cube with
`scale = 2 / max(rangeX, rangeY, rangeZ)` about the bounding-box center. -/
def generateFractalPoints (g : JGenome) (iterations skip : ℕ) (r : ℕ → ℚ) :
    GenResult :=
  if g.transforms.length = 0 then { positions := [], colors := [], count := 0 }
  else
    let st := chaosRun g.transforms skip r iterations
    if st.pts.length = 0 then { positions := [], colors := [], count := 0 }
    else
      let maxRange := max (jsRange st.minX st.maxX)
        (max (jsRange st.minY st.maxY) (jsRange st.minZ st.maxZ))
      let scale := 2 / maxRange
      { positions := st.pts.flatMap (fun p =>
          [(p.x - jsCenter st.minX st.maxX) * scale,
           (p.y - jsCenter st.minY st.maxY) * scale,
           (p.z - jsCenter st.minZ st.maxZ) * scale]),
        colors := st.pts.flatMap (fun p =>
          [p.color.1 / 255, p.color.2.1 / 255, p.color.2.2 / 255]),
        count := st.pts.length }

/-! ## Seed-fractal library and initial population (genome3d.ts) -/

/-- createTetrahedronLike (genome3d.ts, seed library). -/
def createTetrahedronLike (time ctr : ℕ) : FractalGenome3D × ℕ :=
  let s : ℝ := 0.5
  ({ id := generateId time ctr,
     transforms := [
       { m := [s, 0, 0, 0, s, 0, 0, 0, s],
         tx := 0, ty := 0, tz := 0.5,
         probability := 1, color := (255, 100, 100) },
       { m := [s, 0, 0, 0, s, 0, 0, 0, s],
         tx := 0.47, ty := 0, tz := -0.17,
         probability := 1, color := (100, 255, 100) },
       { m := [s, 0, 0, 0, s, 0, 0, 0, s],
         tx := -0.24, ty := 0.41, tz := -0.17,
         probability := 1, color := (100, 100, 255) },
       { m := [s, 0, 0, 0, s, 0, 0, 0, s],
         tx := -0.24, ty := -0.41, tz := -0.17,
         probability := 1, color := (255, 255, 100) } ],
     generation := 0, parentIds := [] }, ctr + 1)

/-- createSpiral3D (genome3d.ts, seed library). -/
def createSpiral3D (time ctr : ℕ) : FractalGenome3D × ℕ :=
  ({ id := generateId time ctr,
     transforms := [
       { m := [0.6, -0.3, 0, 0.3, 0.6, 0, 0, 0, 0.6],
         tx := 0.1, ty := 0.1, tz := 0.2,
         probability := 1, color := (200, 100, 255) },
       { m := [0.5, 0, 0.2, 0, 0.5, 0.1, -0.2, -0.1, 0.5],
         tx := -0.2, ty := 0.1, tz := -0.1,
         probability := 1, color := (100, 200, 255) } ],
     generation := 0, parentIds := [] }, ctr + 1)

/-- createTree3D (genome3d.ts, seed library). -/
def createTree3D (time ctr : ℕ) : FractalGenome3D × ℕ :=
  ({ id := generateId time ctr,
     transforms := [
       { m := [0.05, 0, 0, 0, 0.6, 0, 0, 0, 0.05],
         tx := 0, ty := 0, tz := 0,
         probability := 0.1, color := (139, 90, 43) },
       { m := [0.45, -0.35, 0, 0.35, 0.45, 0, 0, 0, 0.45],
         tx := 0, ty := 0.4, tz := 0,
         probability := 0.35, color := (50, 180, 50) },
       { m := [0.45, 0.35, 0, -0.35, 0.45, 0, 0, 0, 0.45],
         tx := 0, ty := 0.4, tz := 0,
         probability := 0.35, color := (80, 200, 80) },
       { m := [0.45, 0, 0.35, 0, 0.45, 0, -0.35, 0, 0.45],
         tx := 0, ty := 0.4, tz := 0,
         probability := 0.2, color := (60, 220, 60) } ],
     generation := 0, parentIds := [] }, ctr + 1)

/-- createBarnsleyFern3D (genome3d.ts, seed library). -/
def createBarnsleyFern3D (time ctr : ℕ) : FractalGenome3D × ℕ :=
  ({ id := generateId time ctr,
     transforms := [
       { m := [0, 0, 0, 0, 0.16, 0, 0, 0, 0],
         tx := 0, ty := 0, tz := 0,
         probability := 0.01, color := (60, 100, 40) },
       { m := [0.85, 0.04, 0, -0.04, 0.85, 0.1, 0, -0.1, 0.85],
         tx := 0, ty := 1.6, tz := 0,
         probability := 0.85, color := (34, 139, 34) },
       { m := [0.2, -0.26, 0.1, 0.23, 0.22, 0, -0.1, 0, 0.2],
         tx := 0, ty := 1.0, tz := 0.1,
         probability := 0.07, color := (50, 205, 50) },
       { m := [-0.15, 0.28, -0.1, 0.26, 0.24, 0, 0.1, 0, 0.2],
         tx := 0, ty := 0.44, tz := -0.1,
         probability := 0.07, color := (0, 200, 0) } ],
     generation := 0, parentIds := [] }, ctr + 1)

/-- createCantorDust3D (genome3d.ts, seed library). -/
def createCantorDust3D (time ctr : ℕ) : FractalGenome3D × ℕ :=
  let s : ℝ := 0.33
  let d : ℝ := 0.5
  ({ id := generateId time ctr,
     transforms := [
       { m := [s, 0, 0, 0, s, 0, 0, 0, s],
         tx := -d, ty := -d, tz := -d,
         probability := 1, color := (255, 200, 100) },
       { m := [s, 0, 0, 0, s, 0, 0, 0, s],
         tx := d, ty := -d, tz := -d,
         probability := 1, color := (255, 150, 100) },
       { m := [s, 0, 0, 0, s, 0, 0, 0, s],
         tx := -d, ty := d, tz := -d,
         probability := 1, color := (255, 100, 100) },
       { m := [s, 0, 0, 0, s, 0, 0, 0, s],
         tx := d, ty := d, tz := -d,
         probability := 1, color := (200, 100, 150) },
       { m := [s, 0, 0, 0, s, 0, 0, 0, s],
         tx := -d, ty := -d, tz := d,
         probability := 1, color := (150, 100, 200) },
       { m := [s, 0, 0, 0, s, 0, 0, 0, s],
         tx := d, ty := -d, tz := d,
         probability := 1, color := (100, 100, 255) },
       { m := [s, 0, 0, 0, s, 0, 0, 0, s],
         tx := -d, ty := d, tz := d,
         probability := 1, color := (100, 150, 255) },
       { m := [s, 0, 0, 0, s, 0, 0, 0, s],
         tx := d, ty := d, tz := d,
         probability := 1, color := (100, 200, 255) } ],
     generation := 0, parentIds := [] }, ctr + 1)

/-- createOctahedron (genome3d.ts, seed library). -/
def createOctahedron (time ctr : ℕ) : FractalGenome3D × ℕ :=
  let s : ℝ := 0.5
  ({ id := generateId time ctr,
     transforms := [
       { m := [s, 0, 0, 0, s, 0, 0, 0, s],
         tx := 0, ty := 0.5, tz := 0,
         probability := 1, color := (255, 50, 50) },
       { m := [s, 0, 0, 0, s, 0, 0, 0, s],
         tx := 0, ty := -0.5, tz := 0,
         probability := 1, color := (50, 255, 50) },
       { m := [s, 0, 0, 0, s, 0, 0, 0, s],
         tx := 0.5, ty := 0, tz := 0,
         probability := 1, color := (50, 50, 255) },
       { m := [s, 0, 0, 0, s, 0, 0, 0, s],
         tx := -0.5, ty := 0, tz := 0,
         probability := 1, color := (255, 255, 50) },
       { m := [s, 0, 0, 0, s, 0, 0, 0, s],
         tx := 0, ty := 0, tz := 0.5,
         probability := 1, color := (50, 255, 255) },
       { m := [s, 0, 0, 0, s, 0, 0, 0, s],
         tx := 0, ty := 0, tz := -0.5,
         probability := 1, color := (255, 50, 255) } ],
     generation := 0, parentIds := [] }, ctr + 1)

/-- createVicsek3D (genome3d.ts, seed library). -/
def createVicsek3D (time ctr : ℕ) : FractalGenome3D × ℕ :=
  let s : ℝ := 0.33
  ({ id := generateId time ctr,
     transforms := [
       { m := [s, 0, 0, 0, s, 0, 0, 0, s],
         tx := 0, ty := 0, tz := 0,
         probability := 1, color := (255, 255, 255) },
       { m := [s, 0, 0, 0, s, 0, 0, 0, s],
         tx := 0.66, ty := 0, tz := 0,
         probability := 1, color := (255, 100, 100) },
       { m := [s, 0, 0, 0, s, 0, 0, 0, s],
         tx := -0.66, ty := 0, tz := 0,
         probability := 1, color := (100, 255, 100) },
       { m := [s, 0, 0, 0, s, 0, 0, 0, s],
         tx := 0, ty := 0.66, tz := 0,
         probability := 1, color := (100, 100, 255) },
       { m := [s, 0, 0, 0, s, 0, 0, 0, s],
         tx := 0, ty := -0.66, tz := 0,
         probability := 1, color := (255, 255, 100) },
       { m := [s, 0, 0, 0, s, 0, 0, 0, s],
         tx := 0, ty := 0, tz := 0.66,
         probability := 1, color := (100, 255, 255) },
       { m := [s, 0, 0, 0, s, 0, 0, 0, s],
         tx := 0, ty := 0, tz := -0.66,
         probability := 1, color := (255, 100, 255) } ],
     generation := 0, parentIds := [] }, ctr + 1)

/-- createDoubleHelix (genome3d.ts, seed library). -/
def createDoubleHelix (time ctr : ℕ) : FractalGenome3D × ℕ :=
  let angle : ℝ := Real.pi / 6
  let c : ℝ := Real.cos (angle)
  let s : ℝ := Real.sin (angle)
  ({ id := generateId time ctr,
     transforms := [
       { m := [0.7 * c, -0.7 * s, 0, 0.7 * s, 0.7 * c, 0, 0, 0, 0.7],
         tx := 0.15, ty := 0, tz := 0.15,
         probability := 0.5, color := (0, 150, 255) },
       { m := [0.7 * c, 0.7 * s, 0, -0.7 * s, 0.7 * c, 0, 0, 0, 0.7],
         tx := -0.15, ty := 0, tz := 0.15,
         probability := 0.5, color := (255, 100, 150) } ],
     generation := 0, parentIds := [] }, ctr + 1)

/-- createFlameSwirl (genome3d.ts, seed library). -/
def createFlameSwirl (time ctr : ℕ) : FractalGenome3D × ℕ :=
  ({ id := generateId time ctr,
     transforms := [
       { m := [0.5, -0.4, 0.1, 0.4, 0.5, 0.1, -0.1, -0.1, 0.5],
         tx := 0.1, ty := 0.1, tz := 0,
         probability := 0.6, color := (255, 100, 50) },
       { m := [0.4, 0.3, -0.2, -0.3, 0.4, 0.2, 0.2, -0.2, 0.4],
         tx := -0.2, ty := 0.2, tz := 0.1,
         probability := 0.4, color := (255, 200, 100) },
       { m := [0.3, 0, 0.3, 0, 0.3, 0, -0.3, 0, 0.3],
         tx := 0, ty := -0.1, tz := -0.2,
         probability := 0.3, color := (255, 255, 150) } ],
     generation := 0, parentIds := [] }, ctr + 1)

/-- createCrystal (genome3d.ts, seed library). -/
def createCrystal (time ctr : ℕ) : FractalGenome3D × ℕ :=
  let s : ℝ := 0.4
  ({ id := generateId time ctr,
     transforms := [
       { m := [s, 0, 0, 0, s, 0, 0, 0, s],
         tx := 0, ty := 0.5, tz := 0.3,
         probability := 1, color := (200, 220, 255) },
       { m := [s, 0, 0, 0, s, 0, 0, 0, s],
         tx := 0, ty := 0.5, tz := -0.3,
         probability := 1, color := (180, 200, 255) },
       { m := [s, 0, 0, 0, s, 0, 0, 0, s],
         tx := 0.5, ty := 0.3, tz := 0,
         probability := 1, color := (160, 180, 255) },
       { m := [s, 0, 0, 0, s, 0, 0, 0, s],
         tx := -0.5, ty := 0.3, tz := 0,
         probability := 1, color := (140, 160, 255) },
       { m := [s, 0, 0, 0, s, 0, 0, 0, s],
         tx := 0.3, ty := 0, tz := 0.5,
         probability := 1, color := (120, 140, 255) },
       { m := [s, 0, 0, 0, s, 0, 0, 0, s],
         tx := -0.3, ty := 0, tz := 0.5,
         probability := 1, color := (100, 120, 255) } ],
     generation := 0, parentIds := [] }, ctr + 1)

/-- createDragon3D (genome3d.ts, seed library). -/
def createDragon3D (time ctr : ℕ) : FractalGenome3D × ℕ :=
  let r : ℝ := (Real.sqrt 2) / 2
  let angle : ℝ := Real.pi / 4
  let c : ℝ := Real.cos (angle)
  let s : ℝ := Real.sin (angle)
  ({ id := generateId time ctr,
     transforms := [
       { m := [r * c, -r * s, 0, r * s, r * c, 0, 0, 0, r],
         tx := 0, ty := 0, tz := 0.1,
         probability := 0.5, color := (50, 200, 100) },
       { m := [-r * c, -r * s, 0, r * s, -r * c, 0, 0, 0, r],
         tx := 1, ty := 0, tz := -0.1,
         probability := 0.5, color := (100, 50, 200) } ],
     generation := 0, parentIds := [] }, ctr + 1)

/-- createKoch3D (genome3d.ts, seed library). -/
def createKoch3D (time ctr : ℕ) : FractalGenome3D × ℕ :=
  let s : ℝ := 0.33
  ({ id := generateId time ctr,
     transforms := [
       { m := [s, 0, 0, 0, s, 0, 0, 0, s],
         tx := -0.33, ty := 0, tz := 0,
         probability := 1, color := (200, 230, 255) },
       { m := [s, 0, 0, 0, s, 0, 0, 0, s],
         tx := 0.33, ty := 0, tz := 0,
         probability := 1, color := (150, 200, 255) },
       { m := [s * 0.866, -s * 0.5, 0, s * 0.5, s * 0.866, 0, 0, 0, s],
         tx := -0.08, ty := 0.2, tz := 0.15,
         probability := 1, color := (100, 150, 255) },
       { m := [s * 0.866, s * 0.5, 0, -s * 0.5, s * 0.866, 0, 0, 0, s],
         tx := 0.08, ty := 0.2, tz := -0.15,
         probability := 1, color := (50, 100, 255) } ],
     generation := 0, parentIds := [] }, ctr + 1)

/-- createMengerSponge (genome3d.ts, seed library). -/
def createMengerSponge (time ctr : ℕ) : FractalGenome3D × ℕ :=
  let s : ℝ := 0.33
  let d : ℝ := 0.33
  ({ id := generateId time ctr,
     transforms := [
       { m := [s, 0, 0, 0, s, 0, 0, 0, s],
         tx := -d, ty := -d, tz := -d,
         probability := 1, color := (255, 200, 150) },
       { m := [s, 0, 0, 0, s, 0, 0, 0, s],
         tx := d, ty := -d, tz := -d,
         probability := 1, color := (255, 180, 130) },
       { m := [s, 0, 0, 0, s, 0, 0, 0, s],
         tx := -d, ty := d, tz := -d,
         probability := 1, color := (255, 160, 110) },
       { m := [s, 0, 0, 0, s, 0, 0, 0, s],
         tx := d, ty := d, tz := -d,
         probability := 1, color := (255, 140, 90) },
       { m := [s, 0, 0, 0, s, 0, 0, 0, s],
         tx := -d, ty := -d, tz := d,
         probability := 1, color := (255, 120, 70) },
       { m := [s, 0, 0, 0, s, 0, 0, 0, s],
         tx := d, ty := -d, tz := d,
         probability := 1, color := (255, 100, 50) },
       { m := [s, 0, 0, 0, s, 0, 0, 0, s],
         tx := -d, ty := d, tz := d,
         probability := 1, color := (255, 80, 30) },
       { m := [s, 0, 0, 0, s, 0, 0, 0, s],
         tx := d, ty := d, tz := d,
         probability := 1, color := (255, 60, 10) },
       { m := [s, 0, 0, 0, s, 0, 0, 0, s],
         tx := 0, ty := -d, tz := -d,
         probability := 1, color := (200, 150, 100) },
       { m := [s, 0, 0, 0, s, 0, 0, 0, s],
         tx := 0, ty := d, tz := -d,
         probability := 1, color := (200, 130, 80) },
       { m := [s, 0, 0, 0, s, 0, 0, 0, s],
         tx := 0, ty := -d, tz := d,
         probability := 1, color := (200, 110, 60) },
       { m := [s, 0, 0, 0, s, 0, 0, 0, s],
         tx := 0, ty := d, tz := d,
         probability := 1, color := (200, 90, 40) },
       { m := [s, 0, 0, 0, s, 0, 0, 0, s],
         tx := -d, ty := 0, tz := -d,
         probability := 1, color := (150, 100, 50) },
       { m := [s, 0, 0, 0, s, 0, 0, 0, s],
         tx := d, ty := 0, tz := -d,
         probability := 1, color := (150, 80, 30) },
       { m := [s, 0, 0, 0, s, 0, 0, 0, s],
         tx := -d, ty := 0, tz := d,
         probability := 1, color := (150, 60, 10) },
       { m := [s, 0, 0, 0, s, 0, 0, 0, s],
         tx := d, ty := 0, tz := d,
         probability := 1, color := (130, 50, 0) },
       { m := [s, 0, 0, 0, s, 0, 0, 0, s],
         tx := -d, ty := -d, tz := 0,
         probability := 1, color := (180, 120, 70) },
       { m := [s, 0, 0, 0, s, 0, 0, 0, s],
         tx := d, ty := -d, tz := 0,
         probability := 1, color := (180, 100, 50) },
       { m := [s, 0, 0, 0, s, 0, 0, 0, s],
         tx := -d, ty := d, tz := 0,
         probability := 1, color := (180, 80, 30) },
       { m := [s, 0, 0, 0, s, 0, 0, 0, s],
         tx := d, ty := d, tz := 0,
         probability := 1, color := (180, 60, 10) } ],
     generation := 0, parentIds := [] }, ctr + 1)

/-- createGalaxySpiral (genome3d.ts, seed library). -/
def createGalaxySpiral (time ctr : ℕ) : FractalGenome3D × ℕ :=
  ({ id := generateId time ctr,
     transforms := [
       { m := [0.3, 0, 0, 0, 0.3, 0, 0, 0, 0.3],
         tx := 0, ty := 0, tz := 0,
         probability := 0.2, color := (255, 255, 200) },
       { m := [0.7, -0.2, 0, 0.2, 0.7, 0, 0, 0, 0.7],
         tx := 0.2, ty := 0.1, tz := 0.02,
         probability := 0.4, color := (150, 100, 255) },
       { m := [0.7, 0.2, 0, -0.2, 0.7, 0, 0, 0, 0.7],
         tx := -0.2, ty := -0.1, tz := -0.02,
         probability := 0.4, color := (255, 150, 200) } ],
     generation := 0, parentIds := [] }, ctr + 1)

/-- createNestedCubes (genome3d.ts, seed library). -/
def createNestedCubes (time ctr : ℕ) : FractalGenome3D × ℕ :=
  let s : ℝ := 0.45
  let angle : ℝ := Real.pi / 8
  let c : ℝ := Real.cos (angle)
  let sn : ℝ := Real.sin (angle)
  ({ id := generateId time ctr,
     transforms := [
       { m := [s * c, -s * sn, 0, s * sn, s * c, 0, 0, 0, s],
         tx := 0, ty := 0, tz := 0,
         probability := 0.5, color := (255, 100, 100) },
       { m := [s * 0.4, 0, 0, 0, s * 0.4, 0, 0, 0, s * 0.4],
         tx := 0.4, ty := 0, tz := 0,
         probability := 0.2, color := (100, 255, 100) },
       { m := [s * 0.4, 0, 0, 0, s * 0.4, 0, 0, 0, s * 0.4],
         tx := -0.4, ty := 0, tz := 0,
         probability := 0.2, color := (100, 100, 255) },
       { m := [s * 0.4, 0, 0, 0, s * 0.4, 0, 0, 0, s * 0.4],
         tx := 0, ty := 0.4, tz := 0,
         probability := 0.1, color := (255, 255, 100) } ],
     generation := 0, parentIds := [] }, ctr + 1)

/-- createApollonian3D (genome3d.ts, seed library). -/
def createApollonian3D (time ctr : ℕ) : FractalGenome3D × ℕ :=
  let s : ℝ := 0.5
  ({ id := generateId time ctr,
     transforms := [
       { m := [s, 0, 0, 0, s, 0, 0, 0, s],
         tx := 0, ty := 0, tz := 0.4,
         probability := 1, color := (255, 180, 180) },
       { m := [s, 0, 0, 0, s, 0, 0, 0, s],
         tx := 0.35, ty := 0.2, tz := -0.2,
         probability := 1, color := (180, 255, 180) },
       { m := [s, 0, 0, 0, s, 0, 0, 0, s],
         tx := -0.35, ty := 0.2, tz := -0.2,
         probability := 1, color := (180, 180, 255) },
       { m := [s, 0, 0, 0, s, 0, 0, 0, s],
         tx := 0, ty := -0.4, tz := -0.2,
         probability := 1, color := (255, 255, 180) },
       { m := [s * 0.5, 0, 0, 0, s * 0.5, 0, 0, 0, s * 0.5],
         tx := 0, ty := 0, tz := 0,
         probability := 0.5, color := (200, 200, 200) } ],
     generation := 0, parentIds := [] }, ctr + 1)

/-- createPalmFern (genome3d.ts, seed library). -/
def createPalmFern (time ctr : ℕ) : FractalGenome3D × ℕ :=
  ({ id := generateId time ctr,
     transforms := [
       { m := [0.02, 0, 0, 0, 0.5, 0, 0, 0, 0.02],
         tx := 0, ty := -0.2, tz := 0,
         probability := 0.05, color := (101, 67, 33) },
       { m := [0.8, 0, 0.05, 0, 0.8, 0, -0.05, 0, 0.8],
         tx := 0, ty := 0.4, tz := 0,
         probability := 0.6, color := (34, 139, 34) },
       { m := [0.3, -0.3, 0.1, 0.3, 0.3, 0, -0.1, 0, 0.3],
         tx := -0.15, ty := 0.5, tz := 0.05,
         probability := 0.15, color := (50, 205, 50) },
       { m := [0.3, 0.3, -0.1, -0.3, 0.3, 0, 0.1, 0, 0.3],
         tx := 0.15, ty := 0.5, tz := -0.05,
         probability := 0.15, color := (60, 179, 60) },
       { m := [0.3, 0, 0.3, 0, 0.3, 0, -0.3, 0, 0.3],
         tx := 0, ty := 0.5, tz := 0.15,
         probability := 0.05, color := (46, 139, 46) } ],
     generation := 0, parentIds := [] }, ctr + 1)

/-- createRomanesco (genome3d.ts, seed library). -/
def createRomanesco (time ctr : ℕ) : FractalGenome3D × ℕ :=
  let goldenAngle : ℝ := Real.pi * (3 - (Real.sqrt 5))
  let c : ℝ := Real.cos (goldenAngle * 0.3)
  let s : ℝ := Real.sin (goldenAngle * 0.3)
  ({ id := generateId time ctr,
     transforms := [
       { m := [0.7 * c, -0.7 * s, 0, 0.7 * s, 0.7 * c, 0.1, 0, -0.1, 0.7],
         tx := 0, ty := 0.2, tz := 0,
         probability := 0.5, color := (144, 238, 144) },
       { m := [0.4, 0, 0.2, 0, 0.4, 0, -0.2, 0, 0.4],
         tx := 0.25, ty := 0.1, tz := 0,
         probability := 0.25, color := (124, 205, 124) },
       { m := [0.4, 0, -0.2, 0, 0.4, 0, 0.2, 0, 0.4],
         tx := -0.25, ty := 0.1, tz := 0,
         probability := 0.25, color := (100, 180, 100) } ],
     generation := 0, parentIds := [] }, ctr + 1)

/-- createOakTree (genome3d.ts, seed library). -/
def createOakTree (time ctr : ℕ) : FractalGenome3D × ℕ :=
  ({ id := generateId time ctr,
     transforms := [
       { m := [0.05, 0, 0, 0, 0.4, 0, 0, 0, 0.05],
         tx := 0, ty := -0.3, tz := 0,
         probability := 0.08, color := (101, 67, 33) },
       { m := [0.6, 0, 0, 0, 0.6, 0, 0, 0, 0.6],
         tx := 0, ty := 0.5, tz := 0,
         probability := 0.25, color := (85, 107, 47) },
       { m := [0.45, -0.3, 0, 0.3, 0.45, 0, 0, 0, 0.45],
         tx := -0.3, ty := 0.4, tz := 0,
         probability := 0.2, color := (107, 142, 35) },
       { m := [0.45, 0.3, 0, -0.3, 0.45, 0, 0, 0, 0.45],
         tx := 0.3, ty := 0.4, tz := 0,
         probability := 0.2, color := (85, 130, 50) },
       { m := [0.4, 0, 0.2, 0, 0.4, 0, -0.2, 0, 0.4],
         tx := 0, ty := 0.35, tz := 0.25,
         probability := 0.15, color := (120, 160, 60) },
       { m := [0.4, 0, -0.2, 0, 0.4, 0, 0.2, 0, 0.4],
         tx := 0, ty := 0.35, tz := -0.25,
         probability := 0.12, color := (100, 140, 50) } ],
     generation := 0, parentIds := [] }, ctr + 1)

/-- createPineTree (genome3d.ts, seed library). -/
def createPineTree (time ctr : ℕ) : FractalGenome3D × ℕ :=
  ({ id := generateId time ctr,
     transforms := [
       { m := [0.03, 0, 0, 0, 0.5, 0, 0, 0, 0.03],
         tx := 0, ty := -0.4, tz := 0,
         probability := 0.05, color := (79, 46, 23) },
       { m := [0.7, 0, 0, 0, 0.7, 0, 0, 0, 0.7],
         tx := 0, ty := 0.35, tz := 0,
         probability := 0.35, color := (34, 85, 51) },
       { m := [0.35, -0.2, 0, 0.15, 0.35, -0.1, 0, 0.1, 0.35],
         tx := -0.2, ty := 0.2, tz := 0,
         probability := 0.15, color := (46, 100, 60) },
       { m := [0.35, 0.2, 0, -0.15, 0.35, -0.1, 0, 0.1, 0.35],
         tx := 0.2, ty := 0.2, tz := 0,
         probability := 0.15, color := (40, 90, 55) },
       { m := [0.35, 0, 0.2, 0, 0.35, -0.1, -0.15, 0.1, 0.35],
         tx := 0, ty := 0.2, tz := 0.2,
         probability := 0.15, color := (50, 110, 65) },
       { m := [0.35, 0, -0.2, 0, 0.35, -0.1, 0.15, 0.1, 0.35],
         tx := 0, ty := 0.2, tz := -0.2,
         probability := 0.15, color := (38, 88, 52) } ],
     generation := 0, parentIds := [] }, ctr + 1)

/-- createWeepingWillow (genome3d.ts, seed library). -/
def createWeepingWillow (time ctr : ℕ) : FractalGenome3D × ℕ :=
  ({ id := generateId time ctr,
     transforms := [
       { m := [0.06, 0, 0, 0, 0.45, 0, 0, 0, 0.06],
         tx := 0, ty := -0.25, tz := 0,
         probability := 0.08, color := (90, 70, 40) },
       { m := [0.55, 0, 0, 0, 0.55, 0, 0, 0, 0.55],
         tx := 0, ty := 0.4, tz := 0,
         probability := 0.2, color := (154, 205, 50) },
       { m := [0.4, -0.25, 0, 0.2, 0.35, -0.15, 0, 0.15, 0.4],
         tx := -0.25, ty := 0.3, tz := 0,
         probability := 0.18, color := (173, 223, 70) },
       { m := [0.4, 0.25, 0, -0.2, 0.35, -0.15, 0, 0.15, 0.4],
         tx := 0.25, ty := 0.3, tz := 0,
         probability := 0.18, color := (144, 200, 55) },
       { m := [0.4, 0, 0.25, 0, 0.35, -0.15, -0.2, 0.15, 0.4],
         tx := 0, ty := 0.3, tz := 0.25,
         probability := 0.18, color := (160, 210, 60) },
       { m := [0.4, 0, -0.25, 0, 0.35, -0.15, 0.2, 0.15, 0.4],
         tx := 0, ty := 0.3, tz := -0.25,
         probability := 0.18, color := (138, 195, 48) } ],
     generation := 0, parentIds := [] }, ctr + 1)

/-- createCoral (genome3d.ts, seed library). -/
def createCoral (time ctr : ℕ) : FractalGenome3D × ℕ :=
  ({ id := generateId time ctr,
     transforms := [
       { m := [0.15, 0, 0, 0, 0.35, 0, 0, 0, 0.15],
         tx := 0, ty := -0.2, tz := 0,
         probability := 0.1, color := (255, 127, 80) },
       { m := [0.5, 0.1, 0, -0.1, 0.5, 0, 0, 0, 0.5],
         tx := 0, ty := 0.35, tz := 0,
         probability := 0.25, color := (255, 99, 71) },
       { m := [0.4, -0.2, 0.1, 0.2, 0.4, 0, -0.1, 0, 0.4],
         tx := -0.2, ty := 0.25, tz := 0.1,
         probability := 0.2, color := (255, 160, 122) },
       { m := [0.4, 0.2, -0.1, -0.2, 0.4, 0, 0.1, 0, 0.4],
         tx := 0.2, ty := 0.25, tz := -0.1,
         probability := 0.2, color := (250, 128, 114) },
       { m := [0.3, 0, 0.15, 0, 0.35, 0, -0.15, 0, 0.3],
         tx := 0.15, ty := 0.2, tz := 0.15,
         probability := 0.25, color := (255, 182, 193) } ],
     generation := 0, parentIds := [] }, ctr + 1)

/-- createSeaweed (genome3d.ts, seed library). -/
def createSeaweed (time ctr : ℕ) : FractalGenome3D × ℕ :=
  ({ id := generateId time ctr,
     transforms := [
       { m := [0.65, 0.15, 0, -0.1, 0.7, 0, 0, 0, 0.65],
         tx := 0, ty := 0.35, tz := 0,
         probability := 0.5, color := (60, 120, 60) },
       { m := [0.35, -0.25, 0.05, 0.2, 0.35, 0, -0.05, 0, 0.35],
         tx := -0.15, ty := 0.2, tz := 0,
         probability := 0.25, color := (80, 140, 80) },
       { m := [0.35, 0.25, -0.05, -0.2, 0.35, 0, 0.05, 0, 0.35],
         tx := 0.15, ty := 0.2, tz := 0,
         probability := 0.25, color := (70, 130, 70) } ],
     generation := 0, parentIds := [] }, ctr + 1)

/-- createBush (genome3d.ts, seed library). -/
def createBush (time ctr : ℕ) : FractalGenome3D × ℕ :=
  ({ id := generateId time ctr,
     transforms := [
       { m := [0.5, 0, 0, 0, 0.5, 0, 0, 0, 0.5],
         tx := 0, ty := 0.15, tz := 0,
         probability := 0.2, color := (50, 120, 50) },
       { m := [0.45, -0.15, 0, 0.15, 0.45, 0, 0, 0, 0.45],
         tx := -0.25, ty := 0.1, tz := 0,
         probability := 0.16, color := (60, 135, 60) },
       { m := [0.45, 0.15, 0, -0.15, 0.45, 0, 0, 0, 0.45],
         tx := 0.25, ty := 0.1, tz := 0,
         probability := 0.16, color := (55, 125, 55) },
       { m := [0.45, 0, 0.15, 0, 0.45, 0, -0.15, 0, 0.45],
         tx := 0, ty := 0.1, tz := 0.25,
         probability := 0.16, color := (65, 140, 65) },
       { m := [0.45, 0, -0.15, 0, 0.45, 0, 0.15, 0, 0.45],
         tx := 0, ty := 0.1, tz := -0.25,
         probability := 0.16, color := (52, 118, 52) },
       { m := [0.4, 0, 0, 0, 0.45, 0, 0, 0, 0.4],
         tx := 0, ty := 0.3, tz := 0,
         probability := 0.16, color := (70, 150, 70) } ],
     generation := 0, parentIds := [] }, ctr + 1)

/-- createIvy (genome3d.ts, seed library). -/
def createIvy (time ctr : ℕ) : FractalGenome3D × ℕ :=
  let twist : ℝ := Real.pi / 8
  let c : ℝ := Real.cos (twist)
  let s : ℝ := Real.sin (twist)
  ({ id := generateId time ctr,
     transforms := [
       { m := [0.65 * c, -0.65 * s, 0, 0.65 * s, 0.65 * c, 0.05, 0, -0.05, 0.65],
         tx := 0.05, ty := 0.35, tz := 0,
         probability := 0.45, color := (60, 100, 50) },
       { m := [0.35, -0.2, 0, 0.2, 0.35, 0, 0, 0, 0.35],
         tx := -0.2, ty := 0.15, tz := 0.05,
         probability := 0.2, color := (80, 140, 60) },
       { m := [0.35, 0.2, 0, -0.2, 0.35, 0, 0, 0, 0.35],
         tx := 0.2, ty := 0.15, tz := -0.05,
         probability := 0.2, color := (70, 130, 55) },
       { m := [0.3, 0, 0.1, 0, 0.25, -0.1, -0.1, 0.1, 0.3],
         tx := 0.1, ty := -0.1, tz := 0.1,
         probability := 0.15, color := (90, 150, 70) } ],
     generation := 0, parentIds := [] }, ctr + 1)

/-- createGrass (genome3d.ts, seed library). -/
def createGrass (time ctr : ℕ) : FractalGenome3D × ℕ :=
  ({ id := generateId time ctr,
     transforms := [
       { m := [0.15, 0, 0, 0, 0.7, 0, 0, 0, 0.15],
         tx := 0, ty := 0.3, tz := 0,
         probability := 0.25, color := (100, 180, 80) },
       { m := [0.15, -0.1, 0, 0.08, 0.68, 0, 0, 0, 0.15],
         tx := -0.08, ty := 0.28, tz := 0,
         probability := 0.2, color := (90, 165, 70) },
       { m := [0.15, 0.1, 0, -0.08, 0.68, 0, 0, 0, 0.15],
         tx := 0.08, ty := 0.28, tz := 0,
         probability := 0.2, color := (110, 190, 90) },
       { m := [0.15, 0, 0.08, 0, 0.68, 0, -0.08, 0, 0.15],
         tx := 0, ty := 0.28, tz := 0.08,
         probability := 0.2, color := (95, 170, 75) },
       { m := [0.15, 0, -0.08, 0, 0.68, 0, 0.08, 0, 0.15],
         tx := 0, ty := 0.28, tz := -0.08,
         probability := 0.15, color := (105, 185, 85) } ],
     generation := 0, parentIds := [] }, ctr + 1)

/-- createFlower (genome3d.ts, seed library). -/
def createFlower (time ctr : ℕ) : FractalGenome3D × ℕ :=
  ({ id := generateId time ctr,
     transforms := [
       { m := [0.04, 0, 0, 0, 0.5, 0, 0, 0, 0.04],
         tx := 0, ty := -0.35, tz := 0,
         probability := 0.08, color := (80, 140, 60) },
       { m := [0.25, 0, 0, 0, 0.25, 0, 0, 0, 0.25],
         tx := 0, ty := 0.35, tz := 0,
         probability := 0.15, color := (255, 220, 100) },
       { m := [0.35, 0, 0, 0, 0.35, 0.15, 0, -0.1, 0.35],
         tx := 0.25, ty := 0.3, tz := 0,
         probability := 0.15, color := (255, 105, 180) },
       { m := [0.35, 0, 0, 0, 0.35, 0.15, 0, -0.1, 0.35],
         tx := -0.25, ty := 0.3, tz := 0,
         probability := 0.15, color := (255, 130, 190) },
       { m := [0.35, 0, 0, 0, 0.35, 0.15, 0, -0.1, 0.35],
         tx := 0, ty := 0.3, tz := 0.25,
         probability := 0.15, color := (255, 120, 185) },
       { m := [0.35, 0, 0, 0, 0.35, 0.15, 0, -0.1, 0.35],
         tx := 0, ty := 0.3, tz := -0.25,
         probability := 0.15, color := (255, 140, 195) },
       { m := [0.35, 0, 0, 0, 0.4, 0.1, 0, -0.1, 0.35],
         tx := 0, ty := 0.45, tz := 0,
         probability := 0.17, color := (255, 115, 182) } ],
     generation := 0, parentIds := [] }, ctr + 1)

/-- createMushroom (genome3d.ts, seed library). -/
def createMushroom (time ctr : ℕ) : FractalGenome3D × ℕ :=
  ({ id := generateId time ctr,
     transforms := [
       { m := [0.12, 0, 0, 0, 0.45, 0, 0, 0, 0.12],
         tx := 0, ty := -0.2, tz := 0,
         probability := 0.2, color := (245, 235, 220) },
       { m := [0.45, 0, 0, 0, 0.2, 0, 0, 0, 0.45],
         tx := 0, ty := 0.35, tz := 0,
         probability := 0.25, color := (180, 50, 50) },
       { m := [0.4, 0, 0, 0, 0.15, -0.1, 0, 0.05, 0.4],
         tx := 0.2, ty := 0.3, tz := 0,
         probability := 0.15, color := (200, 70, 70) },
       { m := [0.4, 0, 0, 0, 0.15, -0.1, 0, 0.05, 0.4],
         tx := -0.2, ty := 0.3, tz := 0,
         probability := 0.15, color := (190, 60, 60) },
       { m := [0.4, 0, 0, 0, 0.15, -0.1, 0, 0.05, 0.4],
         tx := 0, ty := 0.3, tz := 0.2,
         probability := 0.15, color := (210, 80, 80) },
       { m := [0.15, 0, 0, 0, 0.1, 0, 0, 0, 0.15],
         tx := 0.1, ty := 0.4, tz := 0.05,
         probability := 0.1, color := (255, 255, 255) } ],
     generation := 0, parentIds := [] }, ctr + 1)

/-- createCactus (genome3d.ts, seed library). -/
def createCactus (time ctr : ℕ) : FractalGenome3D × ℕ :=
  ({ id := generateId time ctr,
     transforms := [
       { m := [0.15, 0, 0, 0, 0.6, 0, 0, 0, 0.15],
         tx := 0, ty := 0.25, tz := 0,
         probability := 0.4, color := (60, 140, 70) },
       { m := [0.12, 0, 0, 0, 0.35, 0, 0, 0, 0.12],
         tx := -0.2, ty := 0.15, tz := 0,
         probability := 0.15, color := (70, 150, 80) },
       { m := [0.12, 0, 0, 0.1, 0.35, 0, 0, 0, 0.12],
         tx := -0.25, ty := 0.35, tz := 0,
         probability := 0.15, color := (65, 145, 75) },
       { m := [0.12, 0, 0, 0, 0.35, 0, 0, 0, 0.12],
         tx := 0.2, ty := 0.2, tz := 0,
         probability := 0.15, color := (55, 135, 65) },
       { m := [0.12, 0, 0, -0.1, 0.35, 0, 0, 0, 0.12],
         tx := 0.25, ty := 0.4, tz := 0,
         probability := 0.15, color := (75, 155, 85) } ],
     generation := 0, parentIds := [] }, ctr + 1)

/-- createRoots (genome3d.ts, seed library). -/
def createRoots (time ctr : ℕ) : FractalGenome3D × ℕ :=
  ({ id := generateId time ctr,
     transforms := [
       { m := [0.1, 0, 0, 0, 0.55, 0, 0, 0, 0.1],
         tx := 0, ty := -0.3, tz := 0,
         probability := 0.2, color := (139, 90, 43) },
       { m := [0.4, -0.2, 0, 0.15, 0.4, -0.15, 0, 0.1, 0.4],
         tx := -0.2, ty := -0.2, tz := 0,
         probability := 0.2, color := (160, 110, 60) },
       { m := [0.4, 0.2, 0, -0.15, 0.4, -0.15, 0, 0.1, 0.4],
         tx := 0.2, ty := -0.2, tz := 0,
         probability := 0.2, color := (150, 100, 55) },
       { m := [0.4, 0, 0.2, 0, 0.4, -0.15, -0.15, 0.1, 0.4],
         tx := 0, ty := -0.2, tz := 0.2,
         probability := 0.2, color := (145, 95, 50) },
       { m := [0.4, 0, -0.2, 0, 0.4, -0.15, 0.15, 0.1, 0.4],
         tx := 0, ty := -0.2, tz := -0.2,
         probability := 0.2, color := (155, 105, 58) } ],
     generation := 0, parentIds := [] }, ctr + 1)

/-- createMoss (genome3d.ts, seed library). -/
def createMoss (time ctr : ℕ) : FractalGenome3D × ℕ :=
  ({ id := generateId time ctr,
     transforms := [
       { m := [0.4, 0, 0, 0, 0.35, 0, 0, 0, 0.4],
         tx := 0, ty := 0.08, tz := 0,
         probability := 0.25, color := (85, 130, 70) },
       { m := [0.35, -0.1, 0, 0.1, 0.3, 0, 0, 0, 0.35],
         tx := -0.15, ty := 0.05, tz := 0,
         probability := 0.15, color := (95, 140, 80) },
       { m := [0.35, 0.1, 0, -0.1, 0.3, 0, 0, 0, 0.35],
         tx := 0.15, ty := 0.05, tz := 0,
         probability := 0.15, color := (90, 135, 75) },
       { m := [0.35, 0, 0.1, 0, 0.3, 0, -0.1, 0, 0.35],
         tx := 0, ty := 0.05, tz := 0.15,
         probability := 0.15, color := (100, 145, 85) },
       { m := [0.35, 0, -0.1, 0, 0.3, 0, 0.1, 0, 0.35],
         tx := 0, ty := 0.05, tz := -0.15,
         probability := 0.15, color := (88, 132, 72) },
       { m := [0.2, 0, 0, 0, 0.3, 0, 0, 0, 0.2],
         tx := 0.05, ty := 0.15, tz := 0.05,
         probability := 0.15, color := (110, 160, 95) } ],
     generation := 0, parentIds := [] }, ctr + 1)

/-- createSucculent (genome3d.ts, seed library). -/
def createSucculent (time ctr : ℕ) : FractalGenome3D × ℕ :=
  ({ id := generateId time ctr,
     transforms := [
       { m := [0.4, 0, 0, 0, 0.35, 0, 0, 0, 0.4],
         tx := 0, ty := 0.1, tz := 0,
         probability := 0.2, color := (120, 180, 140) },
       { m := [0.4, -0.15, 0, 0.12, 0.4, 0.05, 0, -0.05, 0.4],
         tx := -0.18, ty := 0.08, tz := 0,
         probability := 0.15, color := (140, 200, 160) },
       { m := [0.4, 0.15, 0, -0.12, 0.4, 0.05, 0, -0.05, 0.4],
         tx := 0.18, ty := 0.08, tz := 0,
         probability := 0.15, color := (130, 190, 150) },
       { m := [0.4, 0, 0.15, 0, 0.4, 0.05, -0.12, -0.05, 0.4],
         tx := 0, ty := 0.08, tz := 0.18,
         probability := 0.15, color := (150, 210, 170) },
       { m := [0.4, 0, -0.15, 0, 0.4, 0.05, 0.12, -0.05, 0.4],
         tx := 0, ty := 0.08, tz := -0.18,
         probability := 0.15, color := (125, 185, 145) },
       { m := [0.3, 0, 0, 0, 0.35, 0.1, 0, -0.08, 0.3],
         tx := 0, ty := 0.2, tz := 0,
         probability := 0.2, color := (160, 220, 180) } ],
     generation := 0, parentIds := [] }, ctr + 1)

/-- createBonsai (genome3d.ts, seed library). -/
def createBonsai (time ctr : ℕ) : FractalGenome3D × ℕ :=
  ({ id := generateId time ctr,
     transforms := [
       { m := [0.08, -0.05, 0, 0.04, 0.4, 0, 0, 0, 0.08],
         tx := -0.05, ty := -0.15, tz := 0,
         probability := 0.1, color := (100, 70, 40) },
       { m := [0.5, 0, 0, 0, 0.45, 0, 0, 0, 0.5],
         tx := 0.1, ty := 0.35, tz := 0,
         probability := 0.25, color := (50, 100, 50) },
       { m := [0.4, -0.2, 0, 0.15, 0.35, 0, 0, 0, 0.4],
         tx := -0.25, ty := 0.25, tz := 0,
         probability := 0.2, color := (60, 115, 60) },
       { m := [0.35, 0.15, 0, -0.1, 0.35, 0, 0, 0, 0.35],
         tx := 0.3, ty := 0.3, tz := 0,
         probability := 0.15, color := (55, 108, 55) },
       { m := [0.25, 0, 0.1, 0, 0.25, -0.05, -0.1, 0.05, 0.25],
         tx := -0.15, ty := 0.4, tz := 0.1,
         probability := 0.15, color := (65, 120, 65) },
       { m := [0.3, 0, 0, 0, 0.2, 0, 0, 0, 0.3],
         tx := 0.2, ty := 0.45, tz := 0.05,
         probability := 0.15, color := (70, 130, 70) } ],
     generation := 0, parentIds := [] }, ctr + 1)

/-- createVineWithLeaves (genome3d.ts, seed library). -/
def createVineWithLeaves (time ctr : ℕ) : FractalGenome3D × ℕ :=
  let angle : ℝ := Real.pi / 6
  let c : ℝ := Real.cos (angle)
  let s : ℝ := Real.sin (angle)
  ({ id := generateId time ctr,
     transforms := [
       { m := [0.7 * c, -0.7 * s, 0, 0.7 * s, 0.7 * c, 0.08, 0, -0.05, 0.7],
         tx := 0, ty := 0.25, tz := 0,
         probability := 0.4, color := (80, 120, 60) },
       { m := [0.3, -0.1, 0, 0.1, 0.35, 0, 0, 0, 0.3],
         tx := -0.2, ty := 0.15, tz := 0,
         probability := 0.2, color := (100, 160, 80) },
       { m := [0.3, 0.1, 0, -0.1, 0.35, 0, 0, 0, 0.3],
         tx := 0.2, ty := 0.2, tz := 0,
         probability := 0.2, color := (90, 150, 70) },
       { m := [0.2, -0.15, 0.05, 0.1, 0.2, 0, -0.05, 0, 0.2],
         tx := -0.15, ty := 0.1, tz := 0.08,
         probability := 0.1, color := (110, 170, 90) },
       { m := [0.2, 0.15, -0.05, -0.1, 0.2, 0, 0.05, 0, 0.2],
         tx := 0.15, ty := 0.15, tz := -0.08,
         probability := 0.1, color := (105, 165, 85) } ],
     generation := 0, parentIds := [] }, ctr + 1)

/-- createFernFrond (genome3d.ts, seed library). -/
def createFernFrond (time ctr : ℕ) : FractalGenome3D × ℕ :=
  ({ id := generateId time ctr,
     transforms := [
       { m := [0.04, 0, 0, 0, 0.7, 0, 0, 0, 0.04],
         tx := 0, ty := 0.25, tz := 0,
         probability := 0.15, color := (70, 110, 50) },
       { m := [0.3, -0.25, 0, 0.2, 0.35, 0, 0, 0, 0.3],
         tx := -0.12, ty := 0.2, tz := 0,
         probability := 0.2, color := (80, 140, 60) },
       { m := [0.3, 0.25, 0, -0.2, 0.35, 0, 0, 0, 0.3],
         tx := 0.12, ty := 0.25, tz := 0,
         probability := 0.2, color := (85, 145, 65) },
       { m := [0.28, -0.22, 0, 0.18, 0.32, 0, 0, 0, 0.28],
         tx := -0.1, ty := 0.35, tz := 0,
         probability := 0.15, color := (75, 135, 55) },
       { m := [0.28, 0.22, 0, -0.18, 0.32, 0, 0, 0, 0.28],
         tx := 0.1, ty := 0.4, tz := 0,
         probability := 0.15, color := (90, 150, 70) },
       { m := [0.25, -0.15, 0, 0.12, 0.25, 0.1, 0, -0.08, 0.25],
         tx := 0, ty := 0.5, tz := 0.05,
         probability := 0.15, color := (95, 155, 75) } ],
     generation := 0, parentIds := [] }, ctr + 1)

/-- SEED_GENERATORS (genome3d.ts:904): the fixed catalog of all 35 seed
constructors, classic fractals first, then botanical forms. -/
def SEED_GENERATORS : List (ℕ → ℕ → FractalGenome3D × ℕ) :=
  [createTetrahedronLike, createSpiral3D, createTree3D, createBarnsleyFern3D,
   createCantorDust3D, createOctahedron, createVicsek3D, createDoubleHelix,
   createFlameSwirl, createCrystal, createDragon3D, createKoch3D,
   createMengerSponge, createGalaxySpiral, createNestedCubes,
   createApollonian3D, createPalmFern, createRomanesco, createOakTree,
   createPineTree, createWeepingWillow, createCoral, createSeaweed,
   createBush, createIvy, createGrass, createFlower, createMushroom,
   createCactus, createRoots, createMoss, createSucculent, createBonsai,
   createVineWithLeaves, createFernFrond]

/-- Insertion step of the seeded shuffle below: one seeded draw per
comparison, placing the element before the head when `draw - 0.5 <= 0`. -/
def insertRand {A : Type} (x : A) : List A → ℕ → List A × ℕ
  | [], s => ([x], s)
  | h :: t, s =>
    let d := seededRandom s
    if d.1 - 0.5 ≤ 0 then (x :: h :: t, d.2)
    else
      let rest := insertRand x t d.2
      (h :: rest.1, rest.2)

/-- Model of `[...SEED_GENERATORS].sort(() => seededRandom() - 0.5)`
(genome3d.ts:956).  `Array.prototype.sort` with a draw-consuming comparator
is engine-specific; it is modelled as a deterministic insertion sort that
consumes one seeded draw per comparison.  Any fixed algorithm reading the
seeded stream in a fixed order yields the reproducibility property. -/
def sortRand {A : Type} : List A → ℕ → List A × ℕ
  | [], s => ([], s)
  | h :: t, s =>
    let rest := sortRand t s
    insertRand h rest.1 rest.2

/-- The `while (population.length < size)` fill of createInitialPopulation3D
(genome3d.ts:965): push seeded random genomes (default generation 0); each
iteration adds one, so `size` fuel suffices. -/
def popFill (size time : ℕ) :
    ℕ → List FractalGenome3D → ℕ → ℕ → List FractalGenome3D × ℕ × ℕ
  | 0, acc, ctr, s => (acc, ctr, s)
  | fuel + 1, acc, ctr, s =>
    if acc.length < size then
      let cg := createRandomGenome3D 0 time ctr s
      popFill size time fuel (acc ++ [cg.1]) cg.2.1 cg.2.2
    else (acc, ctr, s)

/-- createInitialPopulation3D (genome3d.ts:944): seed the mulberry32 state
(from the argument, or from one `Math.random` draw when absent), shuffle the
seed catalog with seeded draws, instantiate the first
`min(floor(size*0.75), 35)` generators, then fill up with seeded random
genomes.  Returns (population, id counter, seeded state). -/
def createInitialPopulation3D (size : ℕ) (seed : Option ℕ) (time ctr : ℕ)
    (r : ℕ → ℚ) (k : ℕ) : List FractalGenome3D × ℕ × ℕ :=
  let s0 : ℕ :=
    match seed with
    | some sd => sd
    | none => Nat.floor (r k * 2147483647)
  let shuffled := sortRand SEED_GENERATORS s0
  let seedCount := min (Nat.floor ((size : ℚ) * 0.75)) shuffled.1.length
  let seeded := (shuffled.1.take seedCount).foldl
    (fun (acc : List FractalGenome3D × ℕ) gen =>
      let g := gen time acc.2
      (acc.1 ++ [g.1], g.2)) ([], ctr)
  popFill size time size seeded.1 seeded.2 shuffled.2

/-! ## Concrete inputs used by witnesses -/

/-- A concrete matrix whose spectral-radius approximation is √3 > 0.85. -/
def wMat : List ℝ := [1, 1, 1, 1, 1, 1, 1, 1, 1]

/-- A concrete transform (spectral radius √(0.75/3) = 0.5) for witnesses. -/
def wTransform : AffineTransform3D :=
  { m := [0.5, 0, 0, 0, 0.5, 0, 0, 0, 0.5], tx := 0, ty := 0, tz := 0,
    probability := 1, color := (255, 0, 0) }

/-- A concrete up-rated two-transform genome. -/
def wGenomeUp : FractalGenome3D :=
  { id := "w-up", transforms := [wTransform, wTransform], generation := 0,
    parentIds := [], rating := some Rating.up }

/-- The same genome without a rating. -/
def wGenomeNone : FractalGenome3D :=
  { id := "w-none", transforms := [wTransform, wTransform], generation := 0,
    parentIds := [], rating := none }

/-- The same genome rated down. -/
def wGenomeDown : FractalGenome3D :=
  { id := "w-down", transforms := [wTransform, wTransform], generation := 0,
    parentIds := [], rating := some Rating.down }

/-- Counterexample input: a generation-0 genome. -/
def c6low : FractalGenome3D :=
  { id := "low", transforms := [wTransform, wTransform], generation := 0,
    parentIds := [], rating := none }

/-- Counterexample input: a generation-2 genome. -/
def c6high : FractalGenome3D :=
  { id := "high", transforms := [wTransform, wTransform], generation := 2,
    parentIds := [], rating := none }

/-- Counterexample population: maximal generation 2, so the scheduler tags
children with generation 3. -/
def c6pop : List FractalGenome3D := [c6high, c6low]

/-- Counterexample configuration (a legal `Partial<EvolutionConfig3D>`
override): one slot, no elites, no injection, no crossover, translation
mutation without structural mutation. -/
def c6cfg : EvolutionConfig3D :=
  { populationSize := 1, mutationRate := 0, mutationStrength := 0,
    mutationType := MutationType.translation, crossoverRate := 0,
    crossoverType := CrossoverType.blend, eliteCount := 0,
    randomInjection := 0, tournamentSize := 3, enforceContractivity := false,
    allowStructuralMutation := false, structuralMutationRate := 0 }

/-- Counterexample random stream: every draw is 0.9, so tournament picks
index ⌊0.9·2⌋ = 1 (the generation-0 genome) and every rate gate fails. -/
def c6r : ℕ → ℚ := fun _ => 9 / 10

/-- All numeric inputs of a transform that feed the chaos-game coordinates
are finite. -/
def finiteTransform (t : JTransform) : Prop :=
  (∀ v ∈ t.m, v.isFinite = true) ∧ t.tx.isFinite = true ∧
    t.ty.isFinite = true ∧ t.tz.isFinite = true

/-- A constant half stream for witnesses. -/
def rHalf : ℕ → ℚ := fun _ => 1 / 2

/-- A fully finite witness transform for the chaos game. -/
def w8t : JTransform :=
  { m := List.replicate 9 (JNum.num 0), tx := JNum.num 0, ty := JNum.num 0,
    tz := JNum.num 0, probability := JNum.num 1, color := (255, 0, 0) }

/-- A one-transform witness genome for the chaos game. -/
def w8g : JGenome := { transforms := [w8t] }

/-- A witness transform whose entries are all non-finite: every application
diverges, exercising the reseed path. -/
def w9t : JTransform :=
  { m := List.replicate 9 JNum.nonfin, tx := JNum.nonfin, ty := JNum.nonfin,
    tz := JNum.nonfin, probability := JNum.nonfin, color := (0, 0, 0) }

/-- A genome whose single transform always diverges. -/
def w9g : JGenome := { transforms := [w9t] }

-- ===== THEOREMS =====

/-! ## Generic list lemmas -/

theorem getD_map_mul (m : List ℝ) (c : ℝ) : ∀ i : ℕ,
    (m.map (fun v => v * c)).getD i 0 = m.getD i 0 * c := by
  induction m with
  | nil => intro i; simp
  | cons a t ih =>
    intro i
    cases i with
    | zero => simp
    | succ j => simpa using ih j

/-! ## C1: enforceContractivity -/

theorem frobSumSq_map_mul (m : List ℝ) (c : ℝ) :
    frobSumSq (m.map (fun v => v * c)) = frobSumSq m * c ^ 2 := by
  unfold frobSumSq
  rw [Finset.sum_mul]
  refine Finset.sum_congr rfl fun i _ => ?_
  rw [getD_map_mul]
  ring

theorem frobSumSq_nonneg (m : List ℝ) : 0 ≤ frobSumSq m :=
  Finset.sum_nonneg fun i _ => sq_nonneg _

theorem spectralRadius_map_mul (m : List ℝ) (c : ℝ) (hc : 0 ≤ c) :
    spectralRadius (m.map (fun v => v * c)) = spectralRadius m * c := by
  unfold spectralRadius
  rw [frobSumSq_map_mul]
  have h3 : frobSumSq m * c ^ 2 / 3 = frobSumSq m / 3 * c ^ 2 := by ring
  rw [h3, Real.sqrt_mul (div_nonneg (frobSumSq_nonneg m) (by norm_num)) (c ^ 2),
    Real.sqrt_sq hc]

theorem spectralRadius_nonneg (m : List ℝ) : 0 ≤ spectralRadius m :=
  Real.sqrt_nonneg _

/-- Claim C1: for every matrix, if the spectral-radius approximation exceeds
0.85 then `enforceContractivity(m, 0.85)` returns the matrix with every entry
scaled by `0.85 / spectralRadius m`, and its spectral-radius approximation is
exactly 0.85; if the approximation is at most 0.85 the input is returned
unchanged. -/
theorem enforceContractivity_spec (m : List ℝ) :
    (spectralRadius m > 0.85 →
      spectralRadius (enforceContractivity m 0.85) = 0.85 ∧
      enforceContractivity m 0.85 =
        m.map (fun v => v * (0.85 / spectralRadius m))) ∧
    (spectralRadius m ≤ 0.85 → enforceContractivity m 0.85 = m) := by
  constructor
  · intro h
    have hsr : (0 : ℝ) < spectralRadius m := lt_trans (by norm_num) h
    have hsc : (0 : ℝ) ≤ 0.85 / spectralRadius m := by positivity
    have heq : enforceContractivity m 0.85 =
        m.map (fun v => v * (0.85 / spectralRadius m)) := by
      unfold enforceContractivity
      rw [if_pos h]
    refine ⟨?_, heq⟩
    rw [heq, spectralRadius_map_mul m _ hsc, mul_div_cancel₀ _ (ne_of_gt hsr)]
  · intro h
    unfold enforceContractivity
    rw [if_neg (not_lt.2 h)]

theorem enforceContractivity_spec_witness :
    spectralRadius (enforceContractivity wMat 0.85) = 0.85 ∧
    enforceContractivity wMat 0.85 =
      wMat.map (fun v => v * (0.85 / spectralRadius wMat)) := by
  refine (enforceContractivity_spec wMat).1 ?_
  have hsum : frobSumSq wMat = 9 := by
    simp [frobSumSq, Finset.sum_range_succ, wMat]
    norm_num
  show (0.85 : ℝ) < spectralRadius wMat
  unfold spectralRadius
  rw [hsum, show (9 : ℝ) / 3 = 3 by norm_num]
  exact (Real.lt_sqrt (by norm_num)).2 (by norm_num)

/-! ## C3: seeded random source is exactly mulberry32 -/

theorem mulberry32_mod (s : ℕ) : mulberry32 s = mulberry32 (s % 4294967296) := by
  unfold mulberry32
  rw [Nat.mod_mod_of_dvd s dvd_rfl]

theorem seededState_mod (seed : ℕ) : ∀ n,
    seededState seed n % 4294967296 = specMulberryState seed n := by
  intro n
  induction n with
  | zero => rfl
  | succ k ih =>
    show (seededState seed k + 0x6D2B79F5) % 4294967296 = _
    rw [Nat.add_mod, ih]
    rfl

theorem xor_lt_word (a b : ℕ) (ha : a < 4294967296) (hb : b < 4294967296) :
    a ^^^ b < 4294967296 := by
  have h32 : (4294967296 : ℕ) = 2 ^ 32 := by norm_num
  rw [h32] at ha hb ⊢
  exact Nat.xor_lt_two_pow ha hb

theorem shiftRight_le_self (n k : ℕ) : n >>> k ≤ n := by
  rw [Nat.shiftRight_eq_div_pow]
  exact Nat.div_le_self _ _

theorem mulberry32_lt (s : ℕ) : mulberry32 s < 4294967296 := by
  have hstep : ∀ t2 : ℕ, t2 < 4294967296 → t2 ^^^ t2 >>> 14 < 4294967296 :=
    fun t2 h => xor_lt_word _ _ h (lt_of_le_of_lt (shiftRight_le_self _ _) h)
  have hm : ∀ x : ℕ, x % 4294967296 < 4294967296 :=
    fun x => Nat.mod_lt _ (by norm_num)
  simp only [mulberry32]
  exact hstep _ (xor_lt_word _ _ (hm _) (hm _))

/-- Claim C3: for every 32-bit seed, the code's seeded random stream is
draw-for-draw the mulberry32 sequence as specified (state bumped by
0x6D2B79F5 mod 2^32, xorshift pipeline, output divided by 2^32), and every
output lies in [0, 1). -/
theorem seededRandom_mulberry32 (seed : ℕ) (hseed : seed < 4294967296) :
    ∀ n, seededOut seed n = specMulberryOut seed n ∧
      0 ≤ seededOut seed n ∧ seededOut seed n < 1 := by
  intro n
  have hst : seededState seed n + 0x6D2B79F5 = seededState seed (n + 1) := rfl
  have hword : mulberry32 (seededState seed n + 0x6D2B79F5) =
      mulberry32 (specMulberryState seed (n + 1)) := by
    rw [hst, mulberry32_mod, seededState_mod]
  have hout : seededOut seed n =
      (mulberry32 (seededState seed n + 0x6D2B79F5) : ℚ) / 4294967296 := rfl
  have hspec : specMulberryOut seed n =
      (mulberry32 (specMulberryState seed (n + 1)) : ℚ) / 4294967296 := rfl
  refine ⟨?_, ?_, ?_⟩
  · rw [hout, hspec, hword]
  · rw [hout]
    exact div_nonneg (Nat.cast_nonneg _) (by norm_num)
  · rw [hout, div_lt_one (by norm_num)]
    exact_mod_cast mulberry32_lt (seededState seed n + 0x6D2B79F5)

theorem seededRandom_mulberry32_witness :
    seededOut 42 0 = specMulberryOut 42 0 ∧
      0 ≤ seededOut 42 0 ∧ seededOut 42 0 < 1 :=
  seededRandom_mulberry32 42 (by norm_num) 0

/-! ## C5: fitness formula -/

theorem calculateFitness_eq (g : FractalGenome3D) :
    calculateFitness g = specFitness g := by
  unfold calculateFitness specFitness specRatingFactor specContractivityBonus
    specAvgSR specDiversityFactor
  rcases hr : g.rating with _ | v
  · simp only [hr, reduceCtorEq, if_false]
    split_ifs <;> ring
  · cases v
    · simp only [hr, Option.some.injEq, reduceCtorEq, if_true, if_false]
      split_ifs <;> ring
    · simp only [hr, Option.some.injEq, reduceCtorEq, if_true, if_false]
      split_ifs <;> ring

/-- Claim C5: for genomes with a non-empty transform list, `calculateFitness`
factors exactly as base × ratingFactor × contractivityBonus × diversityFactor;
an up-rated genome scores exactly 3× and a down-rated genome exactly 0.1× the
otherwise-identical unrated genome. -/
theorem calculateFitness_formula :
    (∀ g : FractalGenome3D, g.transforms ≠ [] →
      calculateFitness g = specFitness g) ∧
    (∀ g h : FractalGenome3D, g.transforms = h.transforms →
      g.rating = some Rating.up → h.rating = none →
      calculateFitness g = 3 * calculateFitness h) ∧
    (∀ g h : FractalGenome3D, g.transforms = h.transforms →
      g.rating = some Rating.down → h.rating = none →
      calculateFitness g = 0.1 * calculateFitness h) := by
  refine ⟨fun g _ => calculateFitness_eq g, fun g h hT hg hh => ?_,
    fun g h hT hg hh => ?_⟩
  · rw [calculateFitness_eq g, calculateFitness_eq h]
    unfold specFitness specRatingFactor specContractivityBonus specAvgSR
      specDiversityFactor
    rw [hT, hg, hh]
    ring
  · rw [calculateFitness_eq g, calculateFitness_eq h]
    unfold specFitness specRatingFactor specContractivityBonus specAvgSR
      specDiversityFactor
    rw [hT, hg, hh]
    ring

theorem calculateFitness_formula_witness :
    calculateFitness wGenomeUp = specFitness wGenomeUp ∧
    calculateFitness wGenomeUp = 3 * calculateFitness wGenomeNone ∧
    calculateFitness wGenomeDown = 0.1 * calculateFitness wGenomeNone :=
  ⟨calculateFitness_formula.1 wGenomeUp (by simp [wGenomeUp]),
   calculateFitness_formula.2.1 wGenomeUp wGenomeNone rfl rfl rfl,
   calculateFitness_formula.2.2 wGenomeDown wGenomeNone rfl rfl rfl⟩

/-! ## C10: up-rated genomes strictly dominate in fitness -/

/-- Claim C10: among genomes with 2–8 transforms, any up-rated genome has
strictly greater fitness than any genome not rated up (min up fitness 2.7 vs
max non-up fitness 1.8); hence in any population ordered by descending
fitness, no up-rated genome ever appears after a non-up one. -/
theorem calculateFitness_up_dominates :
    (∀ g h : FractalGenome3D,
      2 ≤ g.transforms.length → g.transforms.length ≤ 8 →
      2 ≤ h.transforms.length → h.transforms.length ≤ 8 →
      g.rating = some Rating.up → h.rating ≠ some Rating.up →
      calculateFitness h < calculateFitness g) ∧
    (∀ pop : List FractalGenome3D,
      (∀ g ∈ pop, 2 ≤ g.transforms.length ∧ g.transforms.length ≤ 8) →
      List.Pairwise (fun a b => calculateFitness b ≤ calculateFitness a) pop →
      ∀ i j : Fin pop.length, i < j →
        (pop.get j).rating = some Rating.up →
        (pop.get i).rating = some Rating.up) := by
  have key : ∀ g h : FractalGenome3D,
      2 ≤ g.transforms.length → g.transforms.length ≤ 8 →
      2 ≤ h.transforms.length → h.transforms.length ≤ 8 →
      g.rating = some Rating.up → h.rating ≠ some Rating.up →
      calculateFitness h < calculateFitness g := by
    intro g h hg2 hg8 hh2 hh8 hgu hhu
    have hgc2 : (2 : ℝ) ≤ (g.transforms.length : ℝ) := by exact_mod_cast hg2
    have hgc8 : ((g.transforms.length : ℝ)) ≤ 8 := by exact_mod_cast hg8
    have hhc2 : (2 : ℝ) ≤ (h.transforms.length : ℝ) := by exact_mod_cast hh2
    have hhc8 : ((h.transforms.length : ℝ)) ≤ 8 := by exact_mod_cast hh8
    rw [calculateFitness_eq g, calculateFitness_eq h]
    have hRg : specRatingFactor g = 3 := by
      simp only [specRatingFactor, hgu]
      norm_num
    have hRh0 : 0 ≤ specRatingFactor h := by
      unfold specRatingFactor
      rcases h.rating with _ | v
      · norm_num
      · cases v <;> norm_num
    have hRh1 : specRatingFactor h ≤ 1 := by
      unfold specRatingFactor
      rcases hr : h.rating with _ | v
      · norm_num
      · cases v
        · exact absurd hr hhu
        · norm_num
    have hBg : 1 ≤ specContractivityBonus g ∧ specContractivityBonus g ≤ 1.2 := by
      unfold specContractivityBonus
      split_ifs <;> norm_num
    have hBh : 1 ≤ specContractivityBonus h ∧ specContractivityBonus h ≤ 1.2 := by
      unfold specContractivityBonus
      split_ifs <;> norm_num
    have hDg : 0.9 ≤ specDiversityFactor g ∧ specDiversityFactor g ≤ 1.5 := by
      unfold specDiversityFactor
      constructor <;> nlinarith
    have hDh : 0.9 ≤ specDiversityFactor h ∧ specDiversityFactor h ≤ 1.5 := by
      unfold specDiversityFactor
      constructor <;> nlinarith
    unfold specFitness
    rw [hRg]
    have hBh0 : (0 : ℝ) ≤ specContractivityBonus h := by linarith [hBh.1]
    have hDh0 : (0 : ℝ) ≤ specDiversityFactor h := by linarith [hDh.1]
    have hRB : specRatingFactor h * specContractivityBonus h ≤ 1 * 1.2 :=
      mul_le_mul hRh1 hBh.2 hBh0 (by norm_num)
    have hRB0 : 0 ≤ specRatingFactor h * specContractivityBonus h :=
      mul_nonneg hRh0 hBh0
    have hRBD : specRatingFactor h * specContractivityBonus h *
        specDiversityFactor h ≤ 1 * 1.2 * 1.5 :=
      mul_le_mul hRB hDh.2 hDh0 (by norm_num)
    have hBD : (1 : ℝ) * 0.9 ≤ specContractivityBonus g * specDiversityFactor g :=
      mul_le_mul hBg.1 hDg.1 (by norm_num) (by linarith [hBg.1])
    nlinarith [hRBD, hBD]
  refine ⟨key, fun pop hb hp i j hij hjup => ?_⟩
  by_contra hiup
  have hle := (List.pairwise_iff_get.1 hp) i j hij
  have hbi := hb _ (List.get_mem pop i.1 i.2)
  have hbj := hb _ (List.get_mem pop j.1 j.2)
  exact absurd hle (not_le.2 (key _ _ hbj.1 hbj.2 hbi.1 hbi.2 hjup hiup))

theorem calculateFitness_up_dominates_witness :
    calculateFitness wGenomeNone < calculateFitness wGenomeUp :=
  calculateFitness_up_dominates.1 wGenomeUp wGenomeNone
    (by simp [wGenomeUp]) (by simp [wGenomeUp])
    (by simp [wGenomeNone]) (by simp [wGenomeNone])
    rfl (by simp [wGenomeNone])

/-! ## C2: transform-count bounds of crossover and mutation -/

theorem foldl_length_pair {α β : Type} {step : List α × ℕ → β → List α × ℕ}
    (hstep : ∀ acc x, ((step acc x).1).length = acc.1.length + 1) :
    ∀ (l : List β) (acc : List α × ℕ),
      ((l.foldl step acc).1).length = acc.1.length + l.length := by
  intro l
  induction l with
  | nil => intro acc; simp
  | cons x xs ih =>
    intro acc
    rw [List.foldl_cons, ih, hstep]
    simp only [List.length_cons]
    omega

theorem foldl_length_list {α β : Type} {step : List α → β → List α}
    (hstep : ∀ acc x, (step acc x).length = acc.length + 1) :
    ∀ (l : List β) (acc : List α),
      ((l.foldl step acc)).length = acc.length + l.length := by
  intro l
  induction l with
  | nil => intro acc; simp
  | cons x xs ih =>
    intro acc
    rw [List.foldl_cons, ih, hstep]
    simp only [List.length_cons]
    omega

theorem uniformCrossover_length (r : ℕ → ℚ) (a b : List AffineTransform3D)
    (k : ℕ) : (uniformCrossover r a b k).1.length = max a.length b.length := by
  unfold uniformCrossover
  rw [foldl_length_pair (fun acc x => by simp [uniformCrossoverStep])]
  simp

theorem blendCrossoverStep_length (alpha : ℝ) (a b : List AffineTransform3D)
    (acc : List AffineTransform3D) (i : ℕ) :
    (blendCrossoverStep alpha a b acc i).length = acc.length + 1 := by
  unfold blendCrossoverStep
  split_ifs <;> simp

theorem blendCrossover_length (r : ℕ → ℚ) (a b : List AffineTransform3D)
    (bf : Option ℝ) (k : ℕ) :
    (blendCrossover r a b bf k).1.length = max a.length b.length := by
  unfold blendCrossover
  cases bf <;>
    · rw [foldl_length_list (blendCrossoverStep_length _ a b)]
      simp

theorem parameterCrossover_length (r : ℕ → ℚ) (a b : List AffineTransform3D)
    (k : ℕ) : (parameterCrossover r a b k).1.length = max a.length b.length := by
  unfold parameterCrossover
  rw [foldl_length_pair (fun acc x => by
    unfold parameterCrossoverStep
    split_ifs <;> simp)]
  simp

theorem singlePointCrossover_length (r : ℕ → ℚ) (a b : List AffineTransform3D)
    (k : ℕ) (hk : r k < 1) :
    (singlePointCrossover r a b k).1.length = b.length := by
  unfold singlePointCrossover
  have hM : (0 : ℚ) ≤ (a.length : ℚ) ⊓ (b.length : ℚ) :=
    le_min (Nat.cast_nonneg _) (Nat.cast_nonneg _)
  have h1 : r k * ((a.length : ℚ) ⊓ (b.length : ℚ)) ≤
      (a.length : ℚ) ⊓ (b.length : ℚ) := by
    nlinarith [mul_nonneg (sub_nonneg.2 (le_of_lt hk)) hM]
  have h2 : ((a.length : ℚ) ⊓ (b.length : ℚ)) =
      ((min a.length b.length : ℕ) : ℚ) := (Nat.cast_min _ _).symm
  have hcp : Nat.floor (r k * ((a.length : ℚ) ⊓ (b.length : ℚ))) ≤
      min a.length b.length :=
    calc Nat.floor (r k * ((a.length : ℚ) ⊓ (b.length : ℚ)))
        ≤ Nat.floor ((min a.length b.length : ℕ) : ℚ) :=
          Nat.floor_le_floor (h2 ▸ h1)
      _ = min a.length b.length := Nat.floor_natCast _
  simp only [List.length_append, List.length_take, List.length_drop]
  omega

theorem structuralStep_length_bounds (r : ℕ → ℚ) (cfg : EvolutionConfig3D)
    (ts : List AffineTransform3D) (k : ℕ)
    (h2 : 2 ≤ ts.length) (h8 : ts.length ≤ 8) :
    2 ≤ (structuralStep r cfg ts k).1.length ∧
      (structuralStep r cfg ts k).1.length ≤ 8 := by
  unfold structuralStep
  split_ifs with h1 hadd
  · simp only [List.length_eraseIdx]
    split_ifs <;> omega
  · simp only [List.length_append, List.length_cons, List.length_nil]
    omega
  · exact ⟨h2, h8⟩

theorem mutateGenomeTransforms_length_bounds (r : ℕ → ℚ)
    (genome : FractalGenome3D) (cfg : EvolutionConfig3D) (k : ℕ)
    (h2 : 2 ≤ genome.transforms.length) (h8 : genome.transforms.length ≤ 8) :
    2 ≤ (mutateGenomeTransforms r genome cfg k).1.length ∧
      (mutateGenomeTransforms r genome cfg k).1.length ≤ 8 := by
  unfold mutateGenomeTransforms
  have hfold : ((genome.transforms.foldl
      (fun (acc : List AffineTransform3D × ℕ) t =>
        let mt := mutateTransform r t cfg.mutationType cfg.mutationStrength acc.2
        (acc.1 ++ [mt.1], mt.2)) ([], k)).1).length =
      genome.transforms.length := by
    rw [foldl_length_pair (fun acc x => by simp)]
    simp
  cases hec : cfg.enforceContractivity <;>
    cases has : cfg.allowStructuralMutation <;>
      simp only [hec, has, Bool.false_eq_true, if_false, if_true]
  · exact ⟨by rw [hfold] at *; omega, by rw [hfold] at *; omega⟩
  · exact structuralStep_length_bounds r cfg _ _
      (by rw [hfold]; omega) (by rw [hfold]; omega)
  · constructor <;> rw [List.length_map, hfold] <;> omega
  · exact structuralStep_length_bounds r cfg _ _
      (by rw [List.length_map, hfold]; omega)
      (by rw [List.length_map, hfold]; omega)

/-- Claim C2: every crossover strategy keeps the transform count within
[2, 8] when both parents are within [2, 8], and `mutateGenome` (any mutation
type, structural mutation firing or not) keeps it within [2, 8]. -/
theorem breeding_transform_bounds :
    (∀ (r : ℕ → ℚ) (a b : FractalGenome3D) (type : CrossoverType) (k : ℕ),
      (∀ n, 0 ≤ r n ∧ r n < 1) →
      2 ≤ a.transforms.length → a.transforms.length ≤ 8 →
      2 ≤ b.transforms.length → b.transforms.length ≤ 8 →
      2 ≤ (crossover r a b type k).1.length ∧
        (crossover r a b type k).1.length ≤ 8) ∧
    (∀ (r : ℕ → ℚ) (g : FractalGenome3D) (cfg : EvolutionConfig3D)
      (time ctr k : ℕ),
      2 ≤ g.transforms.length → g.transforms.length ≤ 8 →
      2 ≤ (mutateGenome r g cfg time ctr k).1.transforms.length ∧
        (mutateGenome r g cfg time ctr k).1.transforms.length ≤ 8) := by
  constructor
  · intro r a b type k hr ha2 ha8 hb2 hb8
    cases type with
    | uniform =>
      unfold crossover
      rw [uniformCrossover_length]
      omega
    | blend =>
      unfold crossover
      rw [blendCrossover_length]
      omega
    | parameter =>
      unfold crossover
      rw [parameterCrossover_length]
      omega
    | singlePoint =>
      unfold crossover
      rw [singlePointCrossover_length r _ _ k (hr k).2]
      omega
  · intro r g cfg time ctr k h2 h8
    have hT : (mutateGenome r g cfg time ctr k).1.transforms =
        (mutateGenomeTransforms r g cfg k).1 := rfl
    rw [hT]
    exact mutateGenomeTransforms_length_bounds r g cfg k h2 h8

theorem breeding_transform_bounds_witness :
    (2 ≤ (crossover (fun _ => 1/2) wGenomeUp wGenomeNone
        CrossoverType.singlePoint 0).1.length ∧
      (crossover (fun _ => 1/2) wGenomeUp wGenomeNone
        CrossoverType.singlePoint 0).1.length ≤ 8) ∧
    (2 ≤ (mutateGenome (fun _ => 1/2) wGenomeUp defaultConfig 0 0 0).1.transforms.length ∧
      (mutateGenome (fun _ => 1/2) wGenomeUp defaultConfig 0 0 0).1.transforms.length ≤ 8) :=
  ⟨breeding_transform_bounds.1 (fun _ => 1/2) wGenomeUp wGenomeNone
      CrossoverType.singlePoint 0 (fun n => ⟨by norm_num, by norm_num⟩)
      (by simp [wGenomeUp]) (by simp [wGenomeUp])
      (by simp [wGenomeNone]) (by simp [wGenomeNone]),
   breeding_transform_bounds.2 (fun _ => 1/2) wGenomeUp defaultConfig 0 0 0
      (by simp [wGenomeUp]) (by simp [wGenomeUp])⟩

/-! ## Scheduler invariants shared by C6 and C7 -/

theorem foldl_preserves_mem {σ β : Type} (proj : σ → List FractalGenome3D)
    (P : FractalGenome3D → Prop) (step : σ → β → σ)
    (hstep : ∀ acc x, (∀ g ∈ proj acc, P g) → ∀ g ∈ proj (step acc x), P g) :
    ∀ (l : List β) (acc : σ), (∀ g ∈ proj acc, P g) →
      ∀ g ∈ proj (l.foldl step acc), P g := by
  intro l
  induction l with
  | nil => intro acc h; simpa using h
  | cons x xs ih =>
    intro acc h
    rw [List.foldl_cons]
    exact ih _ (hstep acc x h)

theorem foldl_length_proj {σ β : Type} (proj : σ → List FractalGenome3D)
    (step : σ → β → σ)
    (hstep : ∀ acc x, (proj (step acc x)).length = (proj acc).length + 1) :
    ∀ (l : List β) (acc : σ),
      (proj (l.foldl step acc)).length = (proj acc).length + l.length := by
  intro l
  induction l with
  | nil => intro acc; simp
  | cons x xs ih =>
    intro acc
    rw [List.foldl_cons, ih, hstep]
    simp only [List.length_cons]
    omega

theorem elitesLoop_generation (r : ℕ → ℚ) (cfg : EvolutionConfig3D)
    (sorted : List FractalGenome3D) (generation time ctr k : ℕ) :
    ∀ g ∈ (elitesLoop r cfg sorted generation time ctr k).1,
      g.generation = generation := by
  unfold elitesLoop
  refine foldl_preserves_mem (fun acc : List FractalGenome3D × ℕ × ℕ => acc.1)
    _ _ ?_ _ _ (by simp)
  intro acc x hacc g hg
  split_ifs at hg
  · rcases List.mem_append.1 hg with h1 | h1
    · exact hacc _ h1
    · simp only [List.mem_singleton] at h1
      subst h1
      rfl
  · exact hacc _ hg

theorem injectionLoop_generation (cfg : EvolutionConfig3D)
    (generation time : ℕ) (start : List FractalGenome3D) (ctr s : ℕ)
    (h : ∀ g ∈ start, g.generation = generation) :
    ∀ g ∈ (injectionLoop cfg generation time start ctr s).1,
      g.generation = generation := by
  unfold injectionLoop
  refine foldl_preserves_mem (fun acc : List FractalGenome3D × ℕ × ℕ => acc.1)
    _ _ ?_ _ _ h
  intro acc x hacc g hg
  rcases List.mem_append.1 hg with h1 | h1
  · exact hacc _ h1
  · simp only [List.mem_singleton] at h1
    subst h1
    rfl

theorem injectionLoop_length (cfg : EvolutionConfig3D) (generation time : ℕ)
    (start : List FractalGenome3D) (ctr s : ℕ) :
    (injectionLoop cfg generation time start ctr s).1.length =
      start.length + cfg.randomInjection := by
  unfold injectionLoop
  rw [foldl_length_proj (fun acc : List FractalGenome3D × ℕ × ℕ => acc.1) _
    (fun acc x => by simp)]
  simp

theorem fillLoop_generation (r : ℕ → ℚ) (pop : List FractalGenome3D)
    (cfg : EvolutionConfig3D) (generation time : ℕ) :
    ∀ (fuel : ℕ) (acc : List FractalGenome3D) (ctr k s : ℕ),
      (∀ g ∈ acc, g.generation = generation) →
      ∀ g ∈ (fillLoop r pop cfg generation time fuel acc ctr k s).1,
        g.generation = generation := by
  intro fuel
  induction fuel with
  | zero => intro acc ctr k s h; simpa [fillLoop] using h
  | succ n ih =>
    intro acc ctr k s h
    have hext : ∀ c : FractalGenome3D, c.generation = generation →
        ∀ g ∈ acc ++ [c], g.generation = generation := by
      intro c hc g hg
      rcases List.mem_append.1 hg with h1 | h1
      · exact h _ h1
      · simp only [List.mem_singleton] at h1
        subst h1
        exact hc
    simp only [fillLoop]
    by_cases hlt : acc.length < cfg.populationSize
    · rw [if_pos hlt]
      split_ifs <;> exact ih _ _ _ _ (hext _ rfl)
    · rw [if_neg hlt]
      simpa using h

theorem fillLoop_length (r : ℕ → ℚ) (pop : List FractalGenome3D)
    (cfg : EvolutionConfig3D) (generation time : ℕ) :
    ∀ (fuel : ℕ) (acc : List FractalGenome3D) (ctr k s : ℕ),
      cfg.populationSize ≤ acc.length + fuel →
      ((fillLoop r pop cfg generation time fuel acc ctr k s).1).length =
        max acc.length cfg.populationSize := by
  intro fuel
  induction fuel with
  | zero =>
    intro acc ctr k s hge
    show acc.length = max acc.length cfg.populationSize
    omega
  | succ n ih =>
    intro acc ctr k s hge
    simp only [fillLoop]
    by_cases hlt : acc.length < cfg.populationSize
    · rw [if_pos hlt]
      split_ifs <;>
        · rw [ih _ _ _ _ (by simp only [List.length_append, List.length_cons,
            List.length_nil]; omega)]
          simp only [List.length_append, List.length_cons, List.length_nil]
          omega
    · rw [if_neg hlt]
      show acc.length = max acc.length cfg.populationSize
      omega

theorem evolveGeneration3D_generation (r : ℕ → ℚ)
    (pop : List FractalGenome3D) (cfg : EvolutionConfig3D)
    (time ctr k s : ℕ) :
    ∀ g ∈ (evolveGeneration3D r pop cfg time ctr k s).1,
      g.generation = maxGeneration pop + 1 := by
  simp only [evolveGeneration3D]
  exact fillLoop_generation r pop cfg _ time _ _ _ _ _
    (injectionLoop_generation cfg _ time _ _ _
      (elitesLoop_generation r cfg _ _ time ctr k))

theorem elitesLoop_no_up (r : ℕ → ℚ) (cfg : EvolutionConfig3D)
    (sorted : List FractalGenome3D) (generation time ctr k : ℕ)
    (h : ∀ i, (sorted.getD i dGenome).rating ≠ some Rating.up) :
    elitesLoop r cfg sorted generation time ctr k = ([], ctr, k) := by
  unfold elitesLoop
  have key : ∀ (l : List ℕ) (acc : List FractalGenome3D × ℕ × ℕ),
      l.foldl (fun acc i =>
        if (sorted.getD i dGenome).rating = some Rating.up then
          let mg := mutateGenome r (sorted.getD i dGenome)
            { cfg with mutationStrength := cfg.mutationStrength * 0.3,
                       structuralMutationRate := 0 } time acc.2.1 acc.2.2
          (acc.1 ++ [{ mg.1 with generation := generation }], mg.2.1, mg.2.2)
        else acc) acc = acc := by
    intro l
    induction l with
    | nil => intro acc; rfl
    | cons x xs ih =>
      intro acc
      rw [List.foldl_cons, if_neg (h x)]
      exact ih acc
  exact key _ _

theorem maxGeneration_eq_zero (pop : List FractalGenome3D)
    (h : ∀ g ∈ pop, g.generation = 0) : maxGeneration pop = 0 := by
  unfold maxGeneration
  have key : ∀ (l : List FractalGenome3D), (∀ g ∈ l, g.generation = 0) →
      ∀ a : ℕ, (l.map (fun g => g.generation)).foldl max a = a := by
    intro l
    induction l with
    | nil => intro _ a; rfl
    | cons x xs ih =>
      intro hl a
      simp only [List.map_cons, List.foldl_cons]
      rw [hl x (List.mem_cons_self x xs), Nat.max_zero]
      exact ih (fun g hg => hl g (List.mem_cons_of_mem x hg)) a
  exact key pop h 0

/-! ## C7: one default-config step on 16 unrated genomes -/

/-- Claim C7: one call of `evolveGeneration3D` with the default configuration
on a population of 16 genomes all of generation 0 and none rated returns
exactly 16 genomes, all tagged with generation 1 (and, being a total
function, cannot throw even though no genome qualifies as an elite). -/
theorem evolveGeneration3D_default_sixteen (r : ℕ → ℚ)
    (pop : List FractalGenome3D) (time ctr k s : ℕ)
    (hlen : pop.length = 16)
    (hgen : ∀ g ∈ pop, g.generation = 0)
    (hrate : ∀ g ∈ pop, g.rating = none) :
    (evolveGeneration3D r pop defaultConfig time ctr k s).1.length = 16 ∧
    ∀ g ∈ (evolveGeneration3D r pop defaultConfig time ctr k s).1,
      g.generation = 1 := by
  have hnup : ∀ i, ((sortByFitnessDesc pop).getD i dGenome).rating ≠
      some Rating.up := by
    intro i
    by_cases hi : i < (sortByFitnessDesc pop).length
    · rw [List.getD_eq_getElem _ _ hi]
      have hmem : (sortByFitnessDesc pop)[i] ∈ sortByFitnessDesc pop :=
        List.getElem_mem hi
      have hmem2 : (sortByFitnessDesc pop)[i] ∈ pop :=
        ((List.mergeSort_perm pop _).mem_iff).1 hmem
      rw [hrate _ hmem2]
      simp
    · rw [List.getD_eq_default _ _ (not_lt.1 hi)]
      simp [dGenome]
  have hmax : maxGeneration pop = 0 := maxGeneration_eq_zero pop hgen
  constructor
  · simp only [evolveGeneration3D]
    rw [elitesLoop_no_up r defaultConfig _ _ time ctr k hnup]
    rw [fillLoop_length r pop defaultConfig _ time _ _ _ _ _
      (by rw [injectionLoop_length]; simp [defaultConfig])]
    rw [injectionLoop_length]
    simp [defaultConfig]
  · intro g hg
    have := evolveGeneration3D_generation r pop defaultConfig time ctr k s g hg
    rw [hmax] at this
    exact this

theorem evolveGeneration3D_default_sixteen_witness :
    (evolveGeneration3D (fun _ => 1/2) (List.replicate 16 wGenomeNone)
      defaultConfig 0 0 0 0).1.length = 16 ∧
    ∀ g ∈ (evolveGeneration3D (fun _ => 1/2) (List.replicate 16 wGenomeNone)
      defaultConfig 0 0 0 0).1, g.generation = 1 :=
  evolveGeneration3D_default_sixteen (fun _ => 1/2) _ 0 0 0 0
    (by simp)
    (fun g hg => by rw [List.eq_of_mem_replicate hg]; rfl)
    (fun g hg => by rw [List.eq_of_mem_replicate hg]; rfl)

/-! ## C6: generation tagging of children -/

theorem tournamentReduce_const3 (g : FractalGenome3D) :
    tournamentReduce [g, g, g] = g := by
  unfold tournamentReduce
  simp only [List.foldl_cons, List.foldl_nil, ite_self]

theorem c6_tournament : tournamentSelect c6r c6pop 3 0 =
    (tournamentReduce [c6low, c6low, c6low], 3) := by
  unfold tournamentSelect
  have hflo : ∀ k : ℕ, Nat.floor (c6r k * ((c6pop.length : ℕ) : ℚ)) = 1 := by
    intro k
    show Nat.floor ((9 / 10 : ℚ) * ((2 : ℕ) : ℚ)) = 1
    rw [Nat.floor_eq_iff] <;> norm_num
  have hrange : List.range 3 = [0, 1, 2] := rfl
  rw [hrange]
  simp only [List.foldl_cons, List.foldl_nil, hflo]
  rfl

theorem c6_selectParent : selectParent c6r c6pop c6cfg 0 = (c6low, 3) := by
  unfold selectParent
  rw [if_pos (by norm_num [c6cfg] : c6cfg.tournamentSize > 1),
    show c6cfg.tournamentSize = 3 from rfl, c6_tournament,
    tournamentReduce_const3]

theorem c6_evolve : (evolveGeneration3D c6r c6pop c6cfg 0 0 0 0).1 =
    [{ (mutateGenome c6r c6low c6cfg 0 0 4).1 with
        generation := maxGeneration c6pop + 1 }] := by
  have hel : elitesLoop c6r c6cfg (sortByFitnessDesc c6pop)
      (maxGeneration c6pop + 1) 0 0 0 = ([], 0, 0) := by
    unfold elitesLoop
    have : min c6cfg.eliteCount (sortByFitnessDesc c6pop).length = 0 := by
      simp [c6cfg]
    rw [this]
    rfl
  have hinj : injectionLoop c6cfg (maxGeneration c6pop + 1) 0 [] 0 0 =
      ([], 0, 0) := rfl
  simp only [evolveGeneration3D, hel, hinj]
  have hone : c6cfg.populationSize = 0 + 1 := rfl
  rw [hone]
  simp only [fillLoop]
  rw [if_pos (by norm_num [c6cfg] : ([] : List FractalGenome3D).length <
    c6cfg.populationSize)]
  rw [c6_selectParent]
  rw [if_neg (by norm_num [c6r, c6cfg] : ¬(c6r (c6low, 3).2 < c6cfg.crossoverRate))]
  simp only [fillLoop]
  rfl

/-- Counterexample to claim C6: with population [generation 2, generation 0],
a one-slot no-crossover configuration and a constant-0.9 stream, the single
child returned by `evolveGeneration3D` is produced by mutation alone from the
generation-0 parent (parentIds = ["low"]) yet is tagged with generation 3,
not 0 + 1 = 1. -/
theorem genome_generation_counterexample :
    ((evolveGeneration3D c6r c6pop c6cfg 0 0 0 0).1.getD 0 dGenome).parentIds =
      [c6low.id] ∧
    c6low.generation = 0 ∧
    ((evolveGeneration3D c6r c6pop c6cfg 0 0 0 0).1.getD 0 dGenome).generation = 3 ∧
    (3 : ℕ) ≠ 0 + 1 := by
  rw [c6_evolve]
  refine ⟨rfl, rfl, ?_, by norm_num⟩
  rfl

/-- Claim C6 (amended): `crossover3D` children carry
`max(parent generations) + 1` and `mutateGenome` children carry
`parent generation + 1`; but every genome returned by a breeding step
(`evolveGeneration3D`) is re-tagged with (maximal generation over the whole
input population) + 1, which equals `max(parent generations) + 1` only when a
parent attains the population maximum (e.g. crossing parents of generations 3
and 5 inside a population of maximal generation 5 yields 6). -/
theorem genome_generation_tagging :
    (∀ (r : ℕ → ℚ) (a b : FractalGenome3D) (time ctr k s : ℕ),
      (crossover3D r a b time ctr k s).1.generation =
        max a.generation b.generation + 1) ∧
    (∀ (r : ℕ → ℚ) (g : FractalGenome3D) (cfg : EvolutionConfig3D)
      (time ctr k : ℕ),
      (mutateGenome r g cfg time ctr k).1.generation = g.generation + 1) ∧
    (∀ (r : ℕ → ℚ) (pop : List FractalGenome3D) (cfg : EvolutionConfig3D)
      (time ctr k s : ℕ),
      ∀ g ∈ (evolveGeneration3D r pop cfg time ctr k s).1,
        g.generation = maxGeneration pop + 1) :=
  ⟨fun _ _ _ _ _ _ _ => rfl, fun _ _ _ _ _ _ => rfl,
   fun r pop cfg time ctr k s => evolveGeneration3D_generation r pop cfg time ctr k s⟩

theorem genome_generation_tagging_witness :
    (crossover3D c6r c6low c6high 0 0 0 0).1.generation =
      max c6low.generation c6high.generation + 1 ∧
    (mutateGenome c6r c6low c6cfg 0 0 0).1.generation =
      c6low.generation + 1 ∧
    ({ (mutateGenome c6r c6low c6cfg 0 0 4).1 with
        generation := maxGeneration c6pop + 1 } : FractalGenome3D).generation =
      maxGeneration c6pop + 1 :=
  ⟨genome_generation_tagging.1 c6r c6low c6high 0 0 0 0,
   genome_generation_tagging.2.1 c6r c6low c6cfg 0 0 0,
   genome_generation_tagging.2.2 c6r c6pop c6cfg 0 0 0 0 _
     (by rw [c6_evolve]; exact List.mem_singleton.2 rfl)⟩

/-! ## C8/C9: chaos-game lemmas -/

theorem jAdd_finite {a b : JNum} (ha : a.isFinite = true)
    (hb : b.isFinite = true) : (jAdd a b).isFinite = true := by
  cases a <;> cases b <;> simp_all [jAdd, JNum.isFinite]

theorem jMul_finite {a b : JNum} (ha : a.isFinite = true)
    (hb : b.isFinite = true) : (jMul a b).isFinite = true := by
  cases a <;> cases b <;> simp_all [jMul, JNum.isFinite]

theorem getD_finite {l : List JNum} (h : ∀ v ∈ l, v.isFinite = true)
    (i : ℕ) : (l.getD i (JNum.num 0)).isFinite = true := by
  by_cases hi : i < l.length
  · rw [List.getD_eq_getElem _ _ hi]
    exact h _ (List.getElem_mem hi)
  · rw [List.getD_eq_default _ _ (not_lt.1 hi)]
    rfl

theorem getD_transform_finite {ts : List JTransform}
    (h : ∀ t ∈ ts, finiteTransform t) (i : ℕ) :
    finiteTransform (ts.getD i dJTransform) := by
  by_cases hi : i < ts.length
  · rw [List.getD_eq_getElem _ _ hi]
    exact h _ (List.getElem_mem hi)
  · rw [List.getD_eq_default _ _ (not_lt.1 hi)]
    refine ⟨?_, rfl, rfl, rfl⟩
    intro v hv
    simp [dJTransform] at hv

theorem applyTransform3D_finite {x y z : JNum} {t : JTransform}
    (ht : finiteTransform t) (hx : x.isFinite = true) (hy : y.isFinite = true)
    (hz : z.isFinite = true) :
    (applyTransform3D x y z t).1.isFinite = true ∧
    (applyTransform3D x y z t).2.1.isFinite = true ∧
    (applyTransform3D x y z t).2.2.isFinite = true := by
  obtain ⟨hm, htx, hty, htz⟩ := ht
  refine ⟨?_, ?_, ?_⟩ <;>
    · apply jAdd_finite
      · apply jAdd_finite
        · apply jAdd_finite
          · exact jMul_finite (getD_finite hm _) hx
          · exact jMul_finite (getD_finite hm _) hy
        · exact jMul_finite (getD_finite hm _) hz
      · first
        | exact htx
        | exact hty
        | exact htz

theorem chaosRun_succ (ts : List JTransform) (skip : ℕ) (r : ℕ → ℚ) (i : ℕ) :
    chaosRun ts skip r (i + 1) =
      chaosStep ts skip r (chaosRun ts skip r i) i := by
  unfold chaosRun
  rw [List.range_succ, List.foldl_append]
  rfl

theorem chaosRun_invariant (ts : List JTransform) (skip : ℕ) (r : ℕ → ℚ)
    (hts : ∀ t ∈ ts, finiteTransform t) : ∀ i : ℕ,
    (chaosRun ts skip r i).x.isFinite = true ∧
    (chaosRun ts skip r i).y.isFinite = true ∧
    (chaosRun ts skip r i).z.isFinite = true ∧
    (chaosRun ts skip r i).pts =
      (List.range (i - skip)).map (fun j => chaosEmit ts skip r (skip + j)) := by
  intro i
  induction i with
  | zero => exact ⟨rfl, rfl, rfl, by simp [chaosRun, chaosInit]⟩
  | succ n ih =>
    obtain ⟨hx, hy, hz, hpts⟩ := ih
    have htf : finiteTransform
        (ts.getD (selectTransform ts (r (chaosRun ts skip r n).k)) dJTransform) :=
      getD_transform_finite hts _
    have hp := applyTransform3D_finite htf hx hy hz
    rw [chaosRun_succ]
    simp only [chaosStep]
    rw [if_neg (by rw [hp.1, hp.2.1, hp.2.2]; simp)]
    by_cases hskip : skip ≤ n
    · rw [if_pos hskip]
      refine ⟨hp.1, hp.2.1, hp.2.2, ?_⟩
      show (chaosRun ts skip r n).pts ++ _ = _
      rw [hpts]
      have h1 : n + 1 - skip = (n - skip) + 1 := by omega
      rw [h1, List.range_succ, List.map_append]
      congr 1
      simp only [List.map_cons, List.map_nil]
      have h2 : skip + (n - skip) = n := by omega
      rw [h2]
      rfl
    · rw [if_neg hskip]
      refine ⟨hp.1, hp.2.1, hp.2.2, ?_⟩
      show (chaosRun ts skip r n).pts = _
      rw [hpts]
      have h1 : n + 1 - skip = n - skip := by omega
      rw [h1]

theorem omin_bound {o : Option ℝ} {a w : ℝ} (h : o = some a) (hw : a ≤ w)
    (v : ℝ) : ∃ a2, omin o v = some a2 ∧ a2 ≤ w :=
  ⟨min a v, by rw [h]; rfl, le_trans (min_le_left _ _) hw⟩

theorem omax_bound {o : Option ℝ} {b w : ℝ} (h : o = some b) (hw : w ≤ b)
    (v : ℝ) : ∃ b2, omax o v = some b2 ∧ w ≤ b2 :=
  ⟨max b v, by rw [h]; rfl, le_trans hw (le_max_left _ _)⟩

theorem omin_new (o : Option ℝ) (v : ℝ) :
    ∃ a2, omin o v = some a2 ∧ a2 ≤ v := by
  cases o with
  | none => exact ⟨v, rfl, le_refl v⟩
  | some a => exact ⟨min a v, rfl, min_le_right _ _⟩

theorem omax_new (o : Option ℝ) (v : ℝ) :
    ∃ b2, omax o v = some b2 ∧ v ≤ b2 := by
  cases o with
  | none => exact ⟨v, rfl, le_refl v⟩
  | some b => exact ⟨max b v, rfl, le_max_right _ _⟩

theorem chaosRun_bounds (ts : List JTransform) (skip : ℕ) (r : ℕ → ℚ) :
    ∀ i : ℕ, ∀ p ∈ (chaosRun ts skip r i).pts,
    (∃ a b, (chaosRun ts skip r i).minX = some a ∧
      (chaosRun ts skip r i).maxX = some b ∧ a ≤ p.x ∧ p.x ≤ b) ∧
    (∃ a b, (chaosRun ts skip r i).minY = some a ∧
      (chaosRun ts skip r i).maxY = some b ∧ a ≤ p.y ∧ p.y ≤ b) ∧
    (∃ a b, (chaosRun ts skip r i).minZ = some a ∧
      (chaosRun ts skip r i).maxZ = some b ∧ a ≤ p.z ∧ p.z ≤ b) := by
  intro i
  induction i with
  | zero => intro p hp; simp [chaosRun, chaosInit] at hp
  | succ n ih =>
    rw [chaosRun_succ]
    simp only [chaosStep]
    split_ifs with hdiv hskip
    · exact ih
    · intro p hp
      rcases List.mem_append.1 hp with hp1 | hp1
      · obtain ⟨⟨a, b, hmin, hmax, h1, h2⟩, ⟨ay, by2, hminy, hmaxy, h1y, h2y⟩,
          ⟨az, bz, hminz, hmaxz, h1z, h2z⟩⟩ := ih p hp1
        obtain ⟨aX, hAX, hAX2⟩ := omin_bound hmin h1 _
        obtain ⟨bX, hBX, hBX2⟩ := omax_bound hmax h2 _
        obtain ⟨aY, hAY, hAY2⟩ := omin_bound hminy h1y _
        obtain ⟨bY, hBY, hBY2⟩ := omax_bound hmaxy h2y _
        obtain ⟨aZ, hAZ, hAZ2⟩ := omin_bound hminz h1z _
        obtain ⟨bZ, hBZ, hBZ2⟩ := omax_bound hmaxz h2z _
        exact ⟨⟨aX, bX, hAX, hBX, hAX2, hBX2⟩, ⟨aY, bY, hAY, hBY, hAY2, hBY2⟩,
          ⟨aZ, bZ, hAZ, hBZ, hAZ2, hBZ2⟩⟩
      · simp only [List.mem_singleton] at hp1
        subst hp1
        obtain ⟨aX, hAX, hAX2⟩ := omin_new (chaosRun ts skip r n).minX _
        obtain ⟨bX, hBX, hBX2⟩ := omax_new (chaosRun ts skip r n).maxX _
        obtain ⟨aY, hAY, hAY2⟩ := omin_new (chaosRun ts skip r n).minY _
        obtain ⟨bY, hBY, hBY2⟩ := omax_new (chaosRun ts skip r n).maxY _
        obtain ⟨aZ, hAZ, hAZ2⟩ := omin_new (chaosRun ts skip r n).minZ _
        obtain ⟨bZ, hBZ, hBZ2⟩ := omax_new (chaosRun ts skip r n).maxZ _
        exact ⟨⟨aX, bX, hAX, hBX, hAX2, hBX2⟩, ⟨aY, bY, hAY, hBY, hAY2, hBY2⟩,
          ⟨aZ, bZ, hAZ, hBZ, hAZ2, hBZ2⟩⟩
    · exact ih

theorem norm_bound {a b v maxRange : ℝ} (hav : a ≤ v) (hvb : v ≤ b)
    (hr : (if b - a = 0 then (1 : ℝ) else b - a) ≤ maxRange)
    (hpos : 0 < maxRange) :
    -1 ≤ (v - (a + b) / 2) * (2 / maxRange) ∧
      (v - (a + b) / 2) * (2 / maxRange) ≤ 1 := by
  have hs : (0 : ℝ) < 2 / maxRange := by positivity
  by_cases h0 : b - a = 0
  · have hv : v - (a + b) / 2 = 0 := by
      have : b = a := by linarith
      rw [this] at hvb ⊢
      have : v = a := le_antisymm hvb hav
      rw [this]
      ring
    rw [hv, zero_mul]
    norm_num
  · rw [if_neg h0] at hr
    have hba : 0 < b - a := by
      rcases lt_trichotomy (b - a) 0 with h | h | h
      · linarith
      · exact absurd h h0
      · exact h
    constructor
    · have hstep : -((b - a) / 2) * (2 / maxRange) ≤
          (v - (a + b) / 2) * (2 / maxRange) := by
        apply mul_le_mul_of_nonneg_right _ (le_of_lt hs)
        linarith
      have heq : -((b - a) / 2) * (2 / maxRange) = -((b - a) / maxRange) := by
        ring
      have hle : (b - a) / maxRange ≤ 1 := (div_le_one hpos).2 hr
      rw [heq] at hstep
      linarith
    · have hstep : (v - (a + b) / 2) * (2 / maxRange) ≤
          ((b - a) / 2) * (2 / maxRange) := by
        apply mul_le_mul_of_nonneg_right _ (le_of_lt hs)
        linarith
      have heq : ((b - a) / 2) * (2 / maxRange) = (b - a) / maxRange := by
        ring
      have hle : (b - a) / maxRange ≤ 1 := (div_le_one hpos).2 hr
      rw [heq] at hstep
      linarith

theorem jsRange_some (a b : ℝ) :
    jsRange (some a) (some b) = if b - a = 0 then (1 : ℝ) else b - a := rfl

theorem jsCenter_some (a b : ℝ) :
    jsCenter (some a) (some b) = (a + b) / 2 := rfl

theorem range_pos {a b v : ℝ} (hav : a ≤ v) (hvb : v ≤ b) :
    (0 : ℝ) < (if b - a = 0 then (1 : ℝ) else b - a) := by
  by_cases h0 : b - a = 0
  · rw [if_pos h0]; norm_num
  · rw [if_neg h0]
    rcases lt_trichotomy (b - a) 0 with h | h | h
    · exact absurd (by linarith : b - a = b - a) (by intro _; linarith)
    · exact absurd h h0
    · exact h

/-- Claim C8: with a non-empty, all-finite genome and `S < N`, no iteration
diverges, the generator emits exactly `N - S` samples, each sample's color is
the color (divided by 255) of the transform selected at its iteration, and
after bounding-box normalization every emitted coordinate lies in [-1, 1]. -/
theorem generateFractalPoints_emits (g : JGenome) (N S : ℕ) (r : ℕ → ℚ)
    (hne : g.transforms ≠ []) (hSN : S < N)
    (hfin : ∀ t ∈ g.transforms, finiteTransform t) :
    (generateFractalPoints g N S r).count = N - S ∧
    (∀ q ∈ (generateFractalPoints g N S r).positions, -1 ≤ q ∧ q ≤ 1) ∧
    (generateFractalPoints g N S r).colors =
      (List.range (N - S)).flatMap (fun j =>
        [(g.transforms.getD (chaosSelIdx g.transforms S r (S + j)) dJTransform).color.1 / 255,
         (g.transforms.getD (chaosSelIdx g.transforms S r (S + j)) dJTransform).color.2.1 / 255,
         (g.transforms.getD (chaosSelIdx g.transforms S r (S + j)) dJTransform).color.2.2 / 255]) := by
  obtain ⟨hx, hy, hz, hpts⟩ := chaosRun_invariant g.transforms S r hfin N
  have hcount : (chaosRun g.transforms S r N).pts.length = N - S := by
    rw [hpts]
    simp
  have hlen0 : ¬(g.transforms.length = 0) := by
    simpa [List.length_eq_zero] using hne
  have hbounds := chaosRun_bounds g.transforms S r N
  unfold generateFractalPoints
  rw [if_neg hlen0, if_neg (by rw [hcount]; omega)]
  refine ⟨hcount, ?_, ?_⟩
  · intro q hq
    rw [List.mem_flatMap] at hq
    obtain ⟨p, hp, hqm⟩ := hq
    obtain ⟨⟨a, b, hmin, hmax, h1, h2⟩, ⟨ay, by2, hminy, hmaxy, h1y, h2y⟩,
      ⟨az, bz, hminz, hmaxz, h1z, h2z⟩⟩ := hbounds p hp
    rw [hmin, hmax, hminy, hmaxy, hminz, hmaxz] at hqm
    simp only [jsRange_some, jsCenter_some, List.mem_cons,
      List.mem_singleton, List.not_mem_nil, or_false] at hqm
    have hrx := range_pos h1 h2
    have hposM : (0 : ℝ) < max (if b - a = 0 then (1:ℝ) else b - a)
        (max (if by2 - ay = 0 then (1:ℝ) else by2 - ay)
          (if bz - az = 0 then (1:ℝ) else bz - az)) :=
      lt_of_lt_of_le hrx (le_max_left _ _)
    rcases hqm with rfl | rfl | rfl
    · exact norm_bound h1 h2 (le_max_left _ _) hposM
    · exact norm_bound h1y h2y
        (le_trans (le_max_left _ _) (le_max_right _ _)) hposM
    · exact norm_bound h1z h2z
        (le_trans (le_max_right _ _) (le_max_right _ _)) hposM
  · rw [hpts, List.flatMap_map]
    rfl

theorem generateFractalPoints_emits_witness :
    (generateFractalPoints w8g 2 1 rHalf).count = 2 - 1 ∧
    (∀ q ∈ (generateFractalPoints w8g 2 1 rHalf).positions, -1 ≤ q ∧ q ≤ 1) ∧
    (generateFractalPoints w8g 2 1 rHalf).colors =
      (List.range (2 - 1)).flatMap (fun j =>
        [(w8g.transforms.getD (chaosSelIdx w8g.transforms 1 rHalf (1 + j)) dJTransform).color.1 / 255,
         (w8g.transforms.getD (chaosSelIdx w8g.transforms 1 rHalf (1 + j)) dJTransform).color.2.1 / 255,
         (w8g.transforms.getD (chaosSelIdx w8g.transforms 1 rHalf (1 + j)) dJTransform).color.2.2 / 255]) :=
  generateFractalPoints_emits w8g 2 1 rHalf (by simp [w8g]) (by norm_num)
    (by
      intro t ht
      simp only [w8g, List.mem_singleton] at ht
      subst ht
      exact ⟨fun v hv => by rw [List.eq_of_mem_replicate hv]; rfl, rfl, rfl, rfl⟩)

/-! ## C9: divergence recovery and the empty result -/

theorem flatMap_length_three {α : Type} (l : List α) (f : α → List ℝ)
    (hf : ∀ x, (f x).length = 3) : (l.flatMap f).length = 3 * l.length := by
  induction l with
  | nil => simp
  | cons x xs ih =>
    simp only [List.flatMap_cons, List.length_append, hf, ih,
      List.length_cons]
    omega

/-- Claim C9: the chaos-game generator never fails — a non-finite coordinate
makes the step discard the point and reseed it from three fresh draws (a
point in [-1,1)^3 when the stream is in [0,1)), leaving the emitted samples
untouched; zero surviving points produce the empty result (count 0, empty
arrays); and the result arrays are always well-formed (3 entries per
sample). -/
theorem chaosGame_divergence_recovery :
    (∀ (ts : List JTransform) (skip : ℕ) (r : ℕ → ℚ) (st : ChaosState) (i : ℕ),
      ((applyTransform3D st.x st.y st.z
          (ts.getD (selectTransform ts (r st.k)) dJTransform)).1.isFinite = false ∨
        (applyTransform3D st.x st.y st.z
          (ts.getD (selectTransform ts (r st.k)) dJTransform)).2.1.isFinite = false ∨
        (applyTransform3D st.x st.y st.z
          (ts.getD (selectTransform ts (r st.k)) dJTransform)).2.2.isFinite = false) →
      chaosStep ts skip r st i =
        { st with x := JNum.num ((r (st.k + 1) : ℝ) * 2 - 1),
                  y := JNum.num ((r (st.k + 2) : ℝ) * 2 - 1),
                  z := JNum.num ((r (st.k + 3) : ℝ) * 2 - 1),
                  k := st.k + 4 } ∧
      ((∀ n, 0 ≤ r n ∧ r n < 1) →
        ∀ n, -1 ≤ (r n : ℝ) * 2 - 1 ∧ (r n : ℝ) * 2 - 1 < 1)) ∧
    (∀ (g : JGenome) (N S : ℕ) (r : ℕ → ℚ),
      (chaosRun g.transforms S r N).pts = [] →
      generateFractalPoints g N S r =
        { positions := [], colors := [], count := 0 }) ∧
    (∀ (g : JGenome) (N S : ℕ) (r : ℕ → ℚ),
      (generateFractalPoints g N S r).positions.length =
        3 * (generateFractalPoints g N S r).count ∧
      (generateFractalPoints g N S r).colors.length =
        3 * (generateFractalPoints g N S r).count) := by
  refine ⟨fun ts skip r st i h => ⟨?_, ?_⟩, fun g N S r hp => ?_,
    fun g N S r => ?_⟩
  · simp only [chaosStep]
    rw [if_pos h]
  · intro hr n
    obtain ⟨h0, h1⟩ := hr n
    have hc0 : (0 : ℝ) ≤ (r n : ℝ) := by exact_mod_cast h0
    have hc1 : ((r n : ℝ)) < 1 := by exact_mod_cast h1
    constructor <;> linarith
  · unfold generateFractalPoints
    by_cases h0 : g.transforms.length = 0
    · rw [if_pos h0]
    · rw [if_neg h0, if_pos (by rw [hp]; rfl)]
  · unfold generateFractalPoints
    by_cases h0 : g.transforms.length = 0
    · rw [if_pos h0]
      simp
    · rw [if_neg h0]
      by_cases h1 : (chaosRun g.transforms S r N).pts.length = 0
      · rw [if_pos h1]
        simp
      · rw [if_neg h1]
        constructor <;> exact flatMap_length_three _ _ (fun p => rfl)

theorem chaosGame_divergence_recovery_witness :
    chaosStep [w9t] 0 rHalf (chaosInit rHalf) 0 =
      { chaosInit rHalf with
          x := JNum.num ((rHalf ((chaosInit rHalf).k + 1) : ℝ) * 2 - 1),
          y := JNum.num ((rHalf ((chaosInit rHalf).k + 2) : ℝ) * 2 - 1),
          z := JNum.num ((rHalf ((chaosInit rHalf).k + 3) : ℝ) * 2 - 1),
          k := (chaosInit rHalf).k + 4 } ∧
    generateFractalPoints w9g 1 0 rHalf =
      { positions := [], colors := [], count := 0 } :=
  ⟨(chaosGame_divergence_recovery.1 [w9t] 0 rHalf (chaosInit rHalf) 0
      (Or.inl rfl)).1,
   chaosGame_divergence_recovery.2.1 w9g 1 0 rHalf rfl⟩

/-! ## C4: seeded initial-population determinism -/

theorem insertRand_mem {A : Type} (y : A) : ∀ (l : List A) (s : ℕ) (x : A),
    x ∈ (insertRand y l s).1 → x = y ∨ x ∈ l := by
  intro l
  induction l with
  | nil =>
    intro s x hx
    simp only [insertRand, List.mem_singleton] at hx
    exact Or.inl hx
  | cons h t ih =>
    intro s x hx
    simp only [insertRand] at hx
    split_ifs at hx
    · simp only [List.mem_cons] at hx
      rcases hx with h1 | h1 | h1
      · exact Or.inl h1
      · exact Or.inr (by rw [h1]; exact List.mem_cons_self h t)
      · exact Or.inr (List.mem_cons_of_mem h h1)
    · simp only [List.mem_cons] at hx
      rcases hx with h1 | h1
      · exact Or.inr (h1 ▸ List.mem_cons_self h t)
      · rcases ih _ _ h1 with h2 | h2
        · exact Or.inl h2
        · exact Or.inr (List.mem_cons_of_mem h h2)

theorem sortRand_mem {A : Type} : ∀ (l : List A) (s : ℕ) (x : A),
    x ∈ (sortRand l s).1 → x ∈ l := by
  intro l
  induction l with
  | nil => intro s x hx; simp [sortRand] at hx
  | cons h t ih =>
    intro s x hx
    simp only [sortRand] at hx
    rcases insertRand_mem h _ _ _ hx with h1 | h1
    · exact h1 ▸ List.mem_cons_self h t
    · exact List.mem_cons_of_mem h (ih _ _ h1)

theorem seedGen_transforms_const :
    ∀ gen ∈ SEED_GENERATORS, ∀ (t c t2 c2 : ℕ),
      (gen t c).1.transforms = (gen t2 c2).1.transforms := by
  intro gen hgen
  fin_cases hgen <;> exact fun t c t2 c2 => rfl

theorem seedFold_proj (gens : List (ℕ → ℕ → FractalGenome3D × ℕ))
    (hg : ∀ gen ∈ gens, ∀ (t c t2 c2 : ℕ),
      (gen t c).1.transforms = (gen t2 c2).1.transforms) :
    ∀ (t t2 : ℕ) (acc1 acc2 : List FractalGenome3D) (c c2 : ℕ),
      acc1.map (fun g => g.transforms) = acc2.map (fun g => g.transforms) →
      ((gens.foldl (fun (acc : List FractalGenome3D × ℕ) gen =>
          let g := gen t acc.2
          (acc.1 ++ [g.1], g.2)) (acc1, c)).1.map (fun g => g.transforms)) =
      ((gens.foldl (fun (acc : List FractalGenome3D × ℕ) gen =>
          let g := gen t2 acc.2
          (acc.1 ++ [g.1], g.2)) (acc2, c2)).1.map (fun g => g.transforms)) := by
  induction gens with
  | nil => intro t t2 acc1 acc2 c c2 h; simpa using h
  | cons gen rest ih =>
    intro t t2 acc1 acc2 c c2 h
    simp only [List.foldl_cons]
    apply ih (fun g hgg => hg g (List.mem_cons_of_mem _ hgg))
    simp only [List.map_append, List.map_cons, List.map_nil, h]
    rw [hg gen (List.mem_cons_self _ _) t c t2 c2]

theorem createRandomGenome3D_transforms_eq (gen t c t2 c2 s : ℕ) :
    (createRandomGenome3D gen t c s).1.transforms =
      (createRandomGenome3D gen t2 c2 s).1.transforms := rfl

theorem popFill_proj (size time time2 : ℕ) :
    ∀ (fuel : ℕ) (acc1 acc2 : List FractalGenome3D) (c c2 s : ℕ),
      acc1.map (fun g => g.transforms) = acc2.map (fun g => g.transforms) →
      ((popFill size time fuel acc1 c s).1.map (fun g => g.transforms)) =
      ((popFill size time2 fuel acc2 c2 s).1.map (fun g => g.transforms)) := by
  intro fuel
  induction fuel with
  | zero => intro acc1 acc2 c c2 s h; simpa [popFill] using h
  | succ n ih =>
    intro acc1 acc2 c c2 s h
    have hlen : acc1.length = acc2.length := by
      have h2 := congrArg List.length h
      simpa using h2
    simp only [popFill]
    by_cases hc : acc1.length < size
    · rw [if_pos hc, if_pos (hlen ▸ hc)]
      apply ih
      simp only [List.map_append, List.map_cons, List.map_nil, h]
      rw [createRandomGenome3D_transforms_eq 0 time c time2 c2 s]
    · rw [if_neg hc, if_neg (hlen ▸ hc)]
      simpa using h

/-- Claim C4: with an explicit seed, the transform content of the initial
population (every matrix entry, translation, probability and color, at every
position) is a function of the size and seed alone — two constructions with
the same seed and size but different clocks, id counters and ambient random
streams agree transform-for-transform. -/
theorem createInitialPopulation3D_deterministic (size sd : ℕ)
    (time ctr time2 ctr2 : ℕ) (r r2 : ℕ → ℚ) (k k2 : ℕ) :
    (createInitialPopulation3D size (some sd) time ctr r k).1.map
      (fun g => g.transforms) =
    (createInitialPopulation3D size (some sd) time2 ctr2 r2 k2).1.map
      (fun g => g.transforms) := by
  simp only [createInitialPopulation3D]
  apply popFill_proj
  apply seedFold_proj
  · intro gen hgen
    exact seedGen_transforms_const gen
      (sortRand_mem _ _ _ (List.mem_of_mem_take hgen))
  · rfl

end

end Fractal
